import Mathlib

/-!
# SoapyWavSink: the pacing and delivery engine of `soapy_wav_sink.cpp`

A shallow embedding of `WavSinkDevice` (constructor, `activateStream`,
`deactivateStream`, `readStream`) from `src/soapy_wav_sink.cpp`.

Conventions of the embedding

* The device object is a record; every member function takes the record and
  returns its C++ return value together with the updated record.
* `std::chrono::system_clock::now()` is an explicit argument `now`, a count of
  clock ticks since the epoch; the platform constant `tpm` is the number of
  clock ticks in one millisecond, so `duration_cast<milliseconds>` is the
  truncating division by `tpm`.
* The `int64_t` product `elapsed.count() * getSampleRate()` leaves the `int64_t`
  range for large inputs of the code (a `uint32_t` rate times an `int64_t` count
  of milliseconds); it is reduced to the `int64_t` range by `wrapInt64`, the two
  complement result the compiled code produces.  The remaining `int64_t` and
  `size_t` values are mathematical integers and naturals: the `size_t` sums stay
  far below 2^32 (the cursor never passes the `int` sample count, see
  `run_pos_le`, and a chunk has at most 130712 samples) and the cumulative count
  is bounded by the due count.
* Reading `samples[ch][i]` outside the array is undefined in C++; the embedding
  returns `none` for a call that would do so.
* The `float` value `(float)x / 32768.0` of a 16 bit sample `x` is exact (it has
  at most 16 significant bits), so it is represented by the rational `x / 32768`.
* Logging calls and the 5 ms sleep have no effect on the returned values or on
  the device record and are left out.
-/

namespace WavSink

/-! ## Constants of the SoapySDR headers -/

/-- Format string of complex signed 16 bit samples (`SoapySDR/Formats.h`). -/
def SOAPY_SDR_CS16 : String := "CS16"

/-- Format string of complex 32 bit float samples (`SoapySDR/Formats.h`). -/
def SOAPY_SDR_CF32 : String := "CF32"

/-- Error code for an unsupported request (`SoapySDR/Errors.h`). -/
def SOAPY_SDR_NOT_SUPPORTED : Int := -5

/-- Direction constant of the receive direction (`SoapySDR/Constants.h`). -/
def SOAPY_SDR_RX : Int := 1

/-- Name of the environment variable consulted by the discovery function
(`#define ENV_VAR_NAME`). -/
def ENV_VAR_NAME : String := "SOAPY_WAV_SINK_FILE"

/-- Key of the file name in an argument map (`#define SOAPY_FILE_NAME_KEY`). -/
def SOAPY_FILE_NAME_KEY : String := "file_name"

/-! ## Data model -/

/-- An argument map `SoapySDR::Kwargs` (a `std::map` from strings to strings): the
value stored under each key, `none` for a key that is absent. -/
abbrev Kwargs := String → Option String

/-- The empty map `SoapySDR::Kwargs()`. -/
def Kwargs.empty : Kwargs := fun _ => none

/-- The assignment `m[key] = value`. -/
def Kwargs.set (m : Kwargs) (key value : String) : Kwargs :=
  fun k => if k = key then some value else m k

/-- Stream session object `struct WavStream`: it holds the format string. -/
structure WavStream where
  format : String
  deriving DecidableEq

/-- The decoded recording as the code sees it through `AudioFile<short>`:
the values of `getNumChannels()`, `getBitDepth()`, `getSampleRate()`
(a `uint32_t`), `getNumSamplesPerChannel()` and the member `samples`
(`samples[channel][index]`, each a 16 bit signed value). -/
structure AudioFile where
  numChannels : Nat
  bitDepth : Int
  sampleRate : Nat
  numSamplesPerChannel : Nat
  samples : List (List Int)
  deriving DecidableEq

/-- The private members of `class WavSinkDevice`:
`_file_name`, `_audioFile`, `_rx_active`, `_start_stamp`, `_samples_sent`, `_pos`. -/
structure WavSinkDevice where
  file_name : String
  audioFile : AudioFile
  rx_active : Bool
  start_stamp : Int
  samples_sent : Int
  pos : Nat
  deriving DecidableEq

/-- One slot of the caller supplied output buffer: a `short` when the buffer is
used as `short *`, a `float` (an exact rational, see above) when used as `float *`. -/
inductive Elem where
  | i16 (v : Int)
  | f32 (v : Rat)
  deriving DecidableEq

/-- The caller supplied interleaved output buffer `buffs[0]`, slot by slot. -/
abbrev Buffer := Nat → Elem

/-- The library invariant of `AudioFile`: `samples` has `getNumChannels()` channel
arrays and each of them has `getNumSamplesPerChannel()` entries. -/
def AudioFile.WellFormed (af : AudioFile) : Prop :=
  af.samples.length = af.numChannels ∧
    ∀ ch ∈ af.samples, ch.length = af.numSamplesPerChannel

instance (af : AudioFile) : Decidable af.WellFormed := by
  unfold AudioFile.WellFormed; exact inferInstance

/-! ## Constructor -/

/-- The checks of the constructor `WavSinkDevice::WavSinkDevice` applied to a loaded
recording, in source order; `none` when all pass, else the thrown message. -/
def constructorChecks (af : AudioFile) : Option String :=
  if af.numChannels != 2 then
    some "Audo file with 2 channels expected"
  else if af.bitDepth != 16 then
    some "Audo file with 16 bit depth expected"
  else if af.numSamplesPerChannel < 256 * 1024 then
    some "Audo file is too short"
  else
    none

/-- Constructor `WavSinkDevice::WavSinkDevice(file_name)`.  The loader
`_audioFile.load` is the argument `load`: `none` when it returns false, else the
decoded recording.  A thrown `std::runtime_error` is `Except.error`.  The members
with `{}` initialisers start at false and 0, the time point at the epoch. -/
def WavSinkDevice.create (load : String → Option AudioFile) (file_name : String) :
    Except String WavSinkDevice :=
  match load file_name with
  | none => .error ("Unable to open wav file: " ++ file_name)
  | some af =>
    match constructorChecks af with
    | some msg => .error msg
    | none =>
      .ok { file_name := file_name, audioFile := af, rx_active := false,
            start_stamp := 0, samples_sent := 0, pos := 0 }

/-! ## Stream activation -/

/-- Member `activateStream(stream, flags, timeNs, numElems)` called when the clock
reads `now`; the result is the returned `int` and the device afterwards. -/
def activateStream (d : WavSinkDevice) (flags : Int) (now : Int) : Int × WavSinkDevice :=
  if flags != 0 then
    (SOAPY_SDR_NOT_SUPPORTED, d)
  else
    (0, { d with rx_active := true, samples_sent := 0, pos := 0, start_stamp := now })

/-- Member `deactivateStream(stream, flags, timeNs)`. -/
def deactivateStream (d : WavSinkDevice) (flags : Int) : Int × WavSinkDevice :=
  if flags != 0 then
    (SOAPY_SDR_NOT_SUPPORTED, d)
  else
    (0, { d with rx_active := false })

/-! ## Reading -/

/-- The local `slice_size` of `readStream` after the rate scaling
(source lines 185 to 196). -/
def scaledSliceSize (sampleRate : Nat) : Nat :=
  let slice_size := 32678
  if sampleRate > 1000000 then slice_size * 4
  else if sampleRate > 500000 then slice_size * 2
  else slice_size

/-- The local `slice_size` of `readStream` after the clamp to `numElems`
(source lines 198 to 202): the chunk size of the call. -/
def sliceSize (sampleRate : Nat) (numElems : Nat) : Nat :=
  let slice_size := scaledSliceSize sampleRate
  if numElems < slice_size then numElems else slice_size

/-- The value of `_pos` after the guard against moving out of the file
(source lines 204 to 208). -/
def wrapPos (d : WavSinkDevice) (slice_size : Nat) : Nat :=
  if d.pos + slice_size > d.audioFile.numSamplesPerChannel then 0 else d.pos

/-- The value `elapsed.count()`: whole milliseconds from `start` to `now`,
`duration_cast` truncating toward zero. -/
def elapsedMs (tpm : Nat) (start now : Int) : Int :=
  Int.tdiv (now - start) tpm

/-- The `int64_t` value of an integer result: its two complement reduction to the
range from -2^63 to 2^63 - 1. -/
def wrapInt64 (x : Int) : Int :=
  (x + 2 ^ 63) % 2 ^ 64 - 2 ^ 63

/-- The local `desired_num_samples`: `elapsed.count() * getSampleRate() / 1000`,
the product taken in `int64_t`, the division truncating toward zero. -/
def desiredNumSamples (elapsed : Int) (sampleRate : Nat) : Int :=
  Int.tdiv (wrapInt64 (elapsed * sampleRate)) 1000

/-- The read `_audioFile.samples[ch][i]`; `none` when out of range. -/
def sampleAt (af : AudioFile) (ch i : Nat) : Option Int :=
  match af.samples[ch]? with
  | none => none
  | some chan => chan[i]?

/-- The value stored for a sample in the `float` buffer: `(float)x / 32768.0`. -/
def toCF32 (x : Int) : Elem := .f32 ((x : Rat) / 32768)

/-- The value stored for a sample in the `short` buffer: `x` itself. -/
def toCS16 (x : Int) : Elem := .i16 x

/-- The fill loop `for (idx ...; idx < slice_size; idx++)` with `remaining`
iterations left, the next one at `idx`: slot `idx * 2 + 0` gets channel 0 (I) and
slot `idx * 2 + 1` gets channel 1 (Q) of the sample at `pos + idx`. -/
def fillLoop (af : AudioFile) (conv : Int → Elem) (pos : Nat) :
    (remaining : Nat) → (idx : Nat) → Buffer → Option Buffer
  | 0, _, buffer => some buffer
  | remaining + 1, idx, buffer =>
    match sampleAt af 0 (pos + idx), sampleAt af 1 (pos + idx) with
    | some i, some q =>
      fillLoop af conv pos remaining (idx + 1)
        (Function.update (Function.update buffer (idx * 2 + 0) (conv i)) (idx * 2 + 1) (conv q))
    | _, _ => none

/-- Outcome of a `readStream` call: the returned `int`, the device afterwards and
the output buffer afterwards. -/
structure ReadResult where
  ret : Int
  dev : WavSinkDevice
  buffer : Buffer

/-- Member `readStream(stream, buffs, numElems, flags, timeNs, timeoutUs)` called
when the clock reads `now`, with `buffer` the content of `buffs[0]`.  The out
parameters `flags` and `timeNs` and the argument `timeoutUs` are never used by the
code.  `none` stands for an out of range read of `samples`. -/
def readStream (tpm : Nat) (d : WavSinkDevice) (stream : WavStream) (buffer : Buffer)
    (numElems : Nat) (now : Int) : Option ReadResult :=
  let slice_size := sliceSize d.audioFile.sampleRate numElems
  let pos := wrapPos d slice_size
  let elapsed := elapsedMs tpm d.start_stamp now
  let desired_num_samples := desiredNumSamples elapsed d.audioFile.sampleRate
  if desired_num_samples < d.samples_sent + (slice_size : Int) then
    some { ret := 0, dev := { d with pos := pos }, buffer := buffer }
  else
    let conv := if stream.format == SOAPY_SDR_CF32 then toCF32 else toCS16
    match fillLoop d.audioFile conv pos slice_size 0 buffer with
    | none => none
    | some buffer =>
      some { ret := (slice_size : Int),
             dev := { d with pos := pos + slice_size,
                             samples_sent := d.samples_sent + (slice_size : Int) },
             buffer := buffer }

/-! ## Call sequences -/

/-- One call made by the consumer on the device. -/
inductive Call where
  | activate (flags : Int) (now : Int)
  | deactivate (flags : Int)
  | read (stream : WavStream) (buffer : Buffer) (numElems : Nat) (now : Int)

/-- The device after one call; `none` when the call reads out of range. -/
def step (tpm : Nat) (d : WavSinkDevice) : Call → Option WavSinkDevice
  | .activate flags now => some (activateStream d flags now).2
  | .deactivate flags => some (deactivateStream d flags).2
  | .read stream buffer numElems now =>
    (readStream tpm d stream buffer numElems now).map (fun r => r.dev)

/-- The device after a sequence of calls, first call first. -/
def run (tpm : Nat) (d : WavSinkDevice) : List Call → Option WavSinkDevice
  | [] => some d
  | c :: cs =>
    match step tpm d c with
    | none => none
    | some d1 => run tpm d1 cs

/-! ## Stream formats and stream setup -/

/-- Member `getStreamFormats(direction, channel)`. -/
def getStreamFormats (_direction : Int) (_channel : Nat) : List String :=
  [SOAPY_SDR_CS16, SOAPY_SDR_CF32]

/-- Member `getNativeStreamFormat(direction, channel, fullScale)`: the returned
string together with the value stored in the out parameter `fullScale`. -/
def getNativeStreamFormat (direction : Int) (_channel : Nat) : Except String (String × Rat) :=
  if direction != SOAPY_SDR_RX then
    .error "WavSink is RX only, use SOAPY_SDR_RX"
  else
    .ok (SOAPY_SDR_CS16, 32768)

/-- Member `setupStream(direction, format, channels, args)`: the new `WavStream`
behind the returned handle, or the thrown message. -/
def setupStream (direction : Int) (format : String) : Except String WavStream :=
  if direction != SOAPY_SDR_RX then
    .error "WavSink is RX only."
  else if format != SOAPY_SDR_CS16 && format != SOAPY_SDR_CF32 then
    .error ("setupStream invalid format \x27" ++ format
      ++ "\x27 -- Only CS16, CF32 are supported by WavSink module.")
  else
    .ok { format := format }

/-! ## Discovery and factory -/

/-- Function `findWavSinkDevice(args)`; `getenv` is `std::getenv`, `none` for a
variable that is not set. -/
def findWavSinkDevice (getenv : String → Option String) (args : Kwargs) : List Kwargs :=
  let file_name : String :=
    match args SOAPY_FILE_NAME_KEY with
    | some v => v
    | none =>
      match getenv ENV_VAR_NAME with
      | some v => v
      | none => ""
  if file_name ≠ "" then
    [(Kwargs.empty.set "label" ("wav_sink :: " ++ file_name)).set SOAPY_FILE_NAME_KEY file_name]
  else
    []

/-- Function `makeWavSinkDevice(args)`; `load` is the loader used by the constructor. -/
def makeWavSinkDevice (load : String → Option AudioFile) (args : Kwargs) :
    Except String WavSinkDevice :=
  match args SOAPY_FILE_NAME_KEY with
  | none => .error "Unable to create WavSink device without file_name"
  | some file_name => WavSinkDevice.create load file_name

/-- The arguments of one `readStream` call: the stream, the output buffer, the
requested count and the clock value at the call. -/
structure ReadArgs where
  stream : WavStream
  buffer : Buffer
  numElems : Nat
  now : Int

/-- The `readStream` call with the given arguments. -/
def ReadArgs.toCall (a : ReadArgs) : Call := .read a.stream a.buffer a.numElems a.now

/-! ## A concrete recording -/

/-- A recording the constructor accepts: two channels of 262144 samples at 96000
samples per second, channel 0 (I) constantly 16384, channel 1 (Q) constantly -16384. -/
def demoFile : AudioFile :=
  { numChannels := 2, bitDepth := 16, sampleRate := 96000, numSamplesPerChannel := 262144,
    samples := [List.replicate 262144 16384, List.replicate 262144 (-16384)] }

/-- The device the constructor builds from `demoFile`: not active, counters 0,
time stamp at the epoch. -/
def demoDevice : WavSinkDevice :=
  { file_name := "demo.wav", audioFile := demoFile, rx_active := false,
    start_stamp := 0, samples_sent := 0, pos := 0 }

/-- The demo device after an activation at clock 0 and eight delivered chunks of
32678 samples: active, position and cumulative count 261424. -/
def wrapDemoDevice : WavSinkDevice :=
  { demoDevice with rx_active := true, samples_sent := 261424, pos := 261424 }

/-- The demo device after an activation at clock 0 and `k` delivered chunks of 32678
samples. -/
def chunkState (k : Nat) : WavSinkDevice :=
  { demoDevice with rx_active := true, samples_sent := 32678 * (k : Int), pos := 32678 * k }

/-- A call sequence on the demo device, the clock in nanoseconds: an activation at
clock 0 and eight reads of up to 100000 samples, each made once its chunk is due. -/
def demoCalls : List Call :=
  [.activate 0 0,
   .read ⟨SOAPY_SDR_CS16⟩ (fun _ => .i16 0) 100000 341000000,
   .read ⟨SOAPY_SDR_CS16⟩ (fun _ => .i16 0) 100000 681000000,
   .read ⟨SOAPY_SDR_CS16⟩ (fun _ => .i16 0) 100000 1022000000,
   .read ⟨SOAPY_SDR_CS16⟩ (fun _ => .i16 0) 100000 1362000000,
   .read ⟨SOAPY_SDR_CS16⟩ (fun _ => .i16 0) 100000 1702000000,
   .read ⟨SOAPY_SDR_CS16⟩ (fun _ => .i16 0) 100000 2043000000,
   .read ⟨SOAPY_SDR_CS16⟩ (fun _ => .i16 0) 100000 2383000000,
   .read ⟨SOAPY_SDR_CS16⟩ (fun _ => .i16 0) 100000 2724000000]

/-- The demo device after the calls `demoCalls` and one more delivered chunk of 720
samples, which ends exactly at the end of the recording: position 262144. -/
def fullDemoDevice : WavSinkDevice :=
  { demoDevice with rx_active := true, samples_sent := 262144, pos := 262144 }

/-- A recording the constructor accepts whose header carries the largest sample
rate a `uint32_t` holds, 4294967295; the samples are those of `demoFile`. -/
def fastFile : AudioFile :=
  { numChannels := 2, bitDepth := 16, sampleRate := 4294967295,
    numSamplesPerChannel := 262144,
    samples := [List.replicate 262144 16384, List.replicate 262144 (-16384)] }

/-- The device the constructor builds from `fastFile`. -/
def fastDevice : WavSinkDevice :=
  { file_name := "fast.wav", audioFile := fastFile, rx_active := false,
    start_stamp := 0, samples_sent := 0, pos := 0 }

/-- The device built from `fastFile` after `activateStream` with flags 0 at clock 0. -/
def activeFastDevice : WavSinkDevice := (activateStream fastDevice 0 0).2

/-- An environment in which only `SOAPY_WAV_SINK_FILE` is set, to `rec.wav`. -/
def demoEnv : String → Option String :=
  fun k => if k = "SOAPY_WAV_SINK_FILE" then some "rec.wav" else none

/-- The demo device after `activateStream` with flags 0 at clock 0. -/
def activeDemoDevice : WavSinkDevice := (activateStream demoDevice 0 0).2

/-- An output buffer holding zeros. -/
def zeroBuffer : Buffer := fun _ => .i16 0

/-! ## Auxiliary lemmas -/

theorem readStream_not_due (tpm : Nat) (d : WavSinkDevice) (stream : WavStream)
    (buffer : Buffer) (numElems : Nat) (now : Int)
    (h : desiredNumSamples (elapsedMs tpm d.start_stamp now) d.audioFile.sampleRate
          < d.samples_sent + (sliceSize d.audioFile.sampleRate numElems : Int)) :
    readStream tpm d stream buffer numElems now =
      some { ret := 0,
             dev := { d with pos := wrapPos d (sliceSize d.audioFile.sampleRate numElems) },
             buffer := buffer } := by
  simp only [readStream, if_pos h]

theorem readStream_due (tpm : Nat) (d : WavSinkDevice) (stream : WavStream)
    (buffer : Buffer) (numElems : Nat) (now : Int)
    (h : ¬ desiredNumSamples (elapsedMs tpm d.start_stamp now) d.audioFile.sampleRate
          < d.samples_sent + (sliceSize d.audioFile.sampleRate numElems : Int)) :
    readStream tpm d stream buffer numElems now =
      (fillLoop d.audioFile (if stream.format == SOAPY_SDR_CF32 then toCF32 else toCS16)
          (wrapPos d (sliceSize d.audioFile.sampleRate numElems))
          (sliceSize d.audioFile.sampleRate numElems) 0 buffer).map
        (fun b =>
          { ret := (sliceSize d.audioFile.sampleRate numElems : Int),
            dev := { d with
              pos := wrapPos d (sliceSize d.audioFile.sampleRate numElems)
                      + sliceSize d.audioFile.sampleRate numElems,
              samples_sent :=
                d.samples_sent + (sliceSize d.audioFile.sampleRate numElems : Int) },
            buffer := b }) := by
  simp only [readStream, if_neg h]
  cases fillLoop d.audioFile (if stream.format == SOAPY_SDR_CF32 then toCF32 else toCS16)
      (wrapPos d (sliceSize d.audioFile.sampleRate numElems))
      (sliceSize d.audioFile.sampleRate numElems) 0 buffer <;> rfl

theorem sampleAt_of_wellFormed (af : AudioFile) (hwf : af.WellFormed) (ch i : Nat)
    (hch : ch < af.numChannels) (hi : i < af.numSamplesPerChannel) :
    ∃ v, sampleAt af ch i = some v := by
  obtain ⟨hlen, hall⟩ := hwf
  have hch2 : ch < af.samples.length := by omega
  have hmem : af.samples[ch] ∈ af.samples := List.getElem_mem hch2
  have hl : i < (af.samples[ch]).length := by rw [hall _ hmem]; exact hi
  refine ⟨(af.samples[ch])[i], ?_⟩
  simp only [sampleAt, List.getElem?_eq_getElem hch2, List.getElem?_eq_getElem hl]

theorem sliceSize_le_numElems (sampleRate numElems : Nat) :
    sliceSize sampleRate numElems ≤ numElems := by
  simp only [sliceSize]
  split_ifs <;> omega

theorem sliceSize_eq_min (sampleRate numElems : Nat) :
    sliceSize sampleRate numElems = min numElems (scaledSliceSize sampleRate) := by
  simp only [sliceSize]
  split_ifs <;> omega

theorem sliceSize_le_bound (sampleRate numElems : Nat) :
    sliceSize sampleRate numElems ≤ 130712 := by
  simp only [sliceSize, scaledSliceSize]
  split_ifs <;> omega

theorem constructorChecks_none (af : AudioFile) (h : constructorChecks af = none) :
    af.numChannels = 2 ∧ af.bitDepth = 16 ∧ 262144 ≤ af.numSamplesPerChannel := by
  unfold constructorChecks at h
  split at h
  · exact absurd h (by simp)
  · split at h
    · exact absurd h (by simp)
    · split at h
      · exact absurd h (by simp)
      · rename_i h1 h2 h3
        refine ⟨by simpa using h1, by simpa using h2, by omega⟩

theorem wrapPos_add_le (d : WavSinkDevice) (c : Nat)
    (hc : c ≤ d.audioFile.numSamplesPerChannel) :
    wrapPos d c + c ≤ d.audioFile.numSamplesPerChannel := by
  unfold wrapPos
  split <;> omega

theorem fillLoop_some (af : AudioFile) (conv : Int → Elem) (pos : Nat) :
    ∀ (n idx : Nat) (buffer : Buffer),
      (∀ j, j < n → ∃ a b, sampleAt af 0 (pos + (idx + j)) = some a ∧
          sampleAt af 1 (pos + (idx + j)) = some b) →
      ∃ out, fillLoop af conv pos n idx buffer = some out := by
  intro n
  induction n with
  | zero => intro idx buffer _; exact ⟨buffer, rfl⟩
  | succ n ih =>
    intro idx buffer h
    obtain ⟨a, b, ha, hb⟩ := h 0 (Nat.succ_pos n)
    simp only [Nat.add_zero] at ha hb
    simp only [fillLoop, ha, hb]
    apply ih
    intro j hj
    have := h (j + 1) (by omega)
    simpa [Nat.add_assoc, Nat.add_comm 1 j] using this

theorem fillLoop_spec (af : AudioFile) (conv : Int → Elem) (pos : Nat) :
    ∀ (n idx : Nat) (buffer out : Buffer), fillLoop af conv pos n idx buffer = some out →
      (∀ j, j < n → ∃ a b, sampleAt af 0 (pos + (idx + j)) = some a ∧
          sampleAt af 1 (pos + (idx + j)) = some b ∧
          out ((idx + j) * 2) = conv a ∧ out ((idx + j) * 2 + 1) = conv b) ∧
      (∀ slot, slot < idx * 2 → out slot = buffer slot) ∧
      (∀ slot, (idx + n) * 2 ≤ slot → out slot = buffer slot) := by
  intro n
  induction n with
  | zero =>
    intro idx buffer out h
    simp only [fillLoop, Option.some.injEq] at h
    subst h
    exact ⟨fun j hj => absurd hj (Nat.not_lt_zero j), fun _ _ => rfl, fun _ _ => rfl⟩
  | succ n ih =>
    intro idx buffer out h
    unfold fillLoop at h
    split at h
    · rename_i a b ha hb
      obtain ⟨h1, h2, h3⟩ := ih (idx + 1) _ out h
      simp only [Nat.add_zero] at h2 h3
      refine ⟨?_, ?_, ?_⟩
      · intro j hj
        cases j with
        | zero =>
          simp only [Nat.add_zero]
          refine ⟨a, b, ha, hb, ?_, ?_⟩
          · rw [h2 (idx * 2) (by omega), Function.update_noteq (by omega),
              Function.update_same]
          · rw [h2 (idx * 2 + 1) (by omega), Function.update_same]
        | succ k =>
          obtain ⟨a1, b1, ha1, hb1, hI, hQ⟩ := h1 k (by omega)
          have e : idx + 1 + k = idx + (k + 1) := by omega
          rw [e] at ha1 hb1 hI hQ
          exact ⟨a1, b1, ha1, hb1, hI, hQ⟩
      · intro slot hslot
        rw [h2 slot (by omega), Function.update_noteq (by omega),
          Function.update_noteq (by omega)]
      · intro slot hslot
        rw [h3 slot (by omega), Function.update_noteq (by omega),
          Function.update_noteq (by omega)]
    · exact absurd h (by simp)

theorem fillLoop_of_valid (d : WavSinkDevice) (hwf : d.audioFile.WellFormed)
    (hok : constructorChecks d.audioFile = none) (conv : Int → Elem) (numElems : Nat)
    (buffer : Buffer) :
    ∃ out, fillLoop d.audioFile conv (wrapPos d (sliceSize d.audioFile.sampleRate numElems))
      (sliceSize d.audioFile.sampleRate numElems) 0 buffer = some out := by
  obtain ⟨h2, _, hN⟩ := constructorChecks_none _ hok
  have hc := sliceSize_le_bound d.audioFile.sampleRate numElems
  have hw := wrapPos_add_le d (sliceSize d.audioFile.sampleRate numElems) (by omega)
  apply fillLoop_some
  intro j hj
  obtain ⟨a, ha⟩ := sampleAt_of_wellFormed _ hwf 0
    (wrapPos d (sliceSize d.audioFile.sampleRate numElems) + (0 + j)) (by omega) (by omega)
  obtain ⟨b, hb⟩ := sampleAt_of_wellFormed _ hwf 1
    (wrapPos d (sliceSize d.audioFile.sampleRate numElems) + (0 + j)) (by omega) (by omega)
  exact ⟨a, b, ha, hb⟩

theorem demoFile_wellFormed : demoFile.WellFormed := by
  refine ⟨rfl, ?_⟩
  intro ch h
  simp only [demoFile, List.mem_cons, List.mem_singleton, List.not_mem_nil, or_false] at h
  rcases h with rfl | rfl <;> exact List.length_replicate _ _

theorem demoFile_checks : constructorChecks demoFile = none := by decide

theorem readStream_due_valid (tpm : Nat) (d : WavSinkDevice) (stream : WavStream)
    (buffer : Buffer) (numElems : Nat) (now : Int) (hwf : d.audioFile.WellFormed)
    (hok : constructorChecks d.audioFile = none)
    (h : ¬ desiredNumSamples (elapsedMs tpm d.start_stamp now) d.audioFile.sampleRate
          < d.samples_sent + (sliceSize d.audioFile.sampleRate numElems : Int)) :
    ∃ out,
      fillLoop d.audioFile (if stream.format == SOAPY_SDR_CF32 then toCF32 else toCS16)
          (wrapPos d (sliceSize d.audioFile.sampleRate numElems))
          (sliceSize d.audioFile.sampleRate numElems) 0 buffer = some out ∧
      readStream tpm d stream buffer numElems now =
        some { ret := (sliceSize d.audioFile.sampleRate numElems : Int),
               dev := { d with
                 pos := wrapPos d (sliceSize d.audioFile.sampleRate numElems)
                         + sliceSize d.audioFile.sampleRate numElems,
                 samples_sent :=
                   d.samples_sent + (sliceSize d.audioFile.sampleRate numElems : Int) },
               buffer := out } := by
  obtain ⟨out, hout⟩ := fillLoop_of_valid d hwf hok
    (if stream.format == SOAPY_SDR_CF32 then toCF32 else toCS16) numElems buffer
  refine ⟨out, hout, ?_⟩
  rw [readStream_due tpm d stream buffer numElems now h, hout]
  rfl

theorem sampleAt_demoFile_I (i : Nat) (h : i < 262144) :
    sampleAt demoFile 0 i = some 16384 := by
  simp only [sampleAt, demoFile, List.getElem?_cons_zero, List.getElem?_replicate_of_lt h]

theorem sampleAt_demoFile_Q (i : Nat) (h : i < 262144) :
    sampleAt demoFile 1 i = some (-16384) := by
  simp only [sampleAt, demoFile, List.getElem?_cons_succ, List.getElem?_cons_zero,
    List.getElem?_replicate_of_lt h]

theorem create_ok (load : String → Option AudioFile) (file_name : String)
    (d0 : WavSinkDevice) (h : WavSinkDevice.create load file_name = .ok d0) :
    ∃ af, load file_name = some af ∧ constructorChecks af = none ∧
      d0 = { file_name := file_name, audioFile := af, rx_active := false,
             start_stamp := 0, samples_sent := 0, pos := 0 } := by
  unfold WavSinkDevice.create at h
  split at h
  · exact absurd h (by simp)
  · rename_i af haf
    split at h
    · exact absurd h (by simp)
    · rename_i hchk
      refine ⟨af, haf, hchk, ?_⟩
      simp only [Except.ok.injEq] at h
      exact h.symm

theorem readStream_audioFile (tpm : Nat) (d : WavSinkDevice) (stream : WavStream)
    (buffer : Buffer) (numElems : Nat) (now : Int) (r : ReadResult)
    (h : readStream tpm d stream buffer numElems now = some r) :
    r.dev.audioFile = d.audioFile := by
  simp only [readStream] at h
  split at h
  · cases h; rfl
  · split at h
    · exact absurd h (by simp)
    · cases h; rfl

theorem step_audioFile (tpm : Nat) (d d1 : WavSinkDevice) (c : Call)
    (h : step tpm d c = some d1) : d1.audioFile = d.audioFile := by
  cases c with
  | activate flags now =>
    simp only [step, activateStream, Option.some.injEq] at h
    subst h
    split <;> rfl
  | deactivate flags =>
    simp only [step, deactivateStream, Option.some.injEq] at h
    subst h
    split <;> rfl
  | read stream buffer numElems now =>
    simp only [step, Option.map_eq_some'] at h
    obtain ⟨r, hr, rfl⟩ := h
    exact readStream_audioFile tpm d stream buffer numElems now r hr

theorem readStream_some_of_valid (tpm : Nat) (d : WavSinkDevice) (stream : WavStream)
    (buffer : Buffer) (numElems : Nat) (now : Int) (hwf : d.audioFile.WellFormed)
    (hok : constructorChecks d.audioFile = none) :
    ∃ r, readStream tpm d stream buffer numElems now = some r := by
  by_cases h : desiredNumSamples (elapsedMs tpm d.start_stamp now) d.audioFile.sampleRate
      < d.samples_sent + (sliceSize d.audioFile.sampleRate numElems : Int)
  · exact ⟨_, readStream_not_due tpm d stream buffer numElems now h⟩
  · obtain ⟨out, -, hr⟩ := readStream_due_valid tpm d stream buffer numElems now hwf hok h
    exact ⟨_, hr⟩

theorem step_some_of_valid (tpm : Nat) (d : WavSinkDevice) (c : Call)
    (hwf : d.audioFile.WellFormed) (hok : constructorChecks d.audioFile = none) :
    ∃ d1, step tpm d c = some d1 := by
  cases c with
  | activate flags now => exact ⟨_, rfl⟩
  | deactivate flags => exact ⟨_, rfl⟩
  | read stream buffer numElems now =>
    obtain ⟨r, hr⟩ := readStream_some_of_valid tpm d stream buffer numElems now hwf hok
    exact ⟨r.dev, by simp only [step, hr, Option.map_some']⟩

theorem run_some_of_valid (tpm : Nat) (calls : List Call) :
    ∀ d : WavSinkDevice, d.audioFile.WellFormed → constructorChecks d.audioFile = none →
      ∃ d1, run tpm d calls = some d1 ∧ d1.audioFile = d.audioFile := by
  induction calls with
  | nil => intro d _ _; exact ⟨d, rfl, rfl⟩
  | cons c cs ih =>
    intro d hwf hok
    obtain ⟨d1, h1⟩ := step_some_of_valid tpm d c hwf hok
    have e1 := step_audioFile tpm d d1 c h1
    obtain ⟨d2, h2, e2⟩ := ih d1 (e1 ▸ hwf) (e1 ▸ hok)
    exact ⟨d2, by simp only [run, h1, h2], e2.trans e1⟩

theorem step_pos_le (tpm : Nat) (d d1 : WavSinkDevice) (c : Call)
    (hok : constructorChecks d.audioFile = none)
    (hpos : d.pos ≤ d.audioFile.numSamplesPerChannel) (h : step tpm d c = some d1) :
    d1.pos ≤ d1.audioFile.numSamplesPerChannel := by
  obtain ⟨-, -, hN⟩ := constructorChecks_none _ hok
  cases c with
  | activate flags now =>
    simp only [step, activateStream, Option.some.injEq] at h
    subst h
    split
    · exact hpos
    · exact Nat.zero_le _
  | deactivate flags =>
    simp only [step, deactivateStream, Option.some.injEq] at h
    subst h
    split <;> exact hpos
  | read stream buffer numElems now =>
    simp only [step, Option.map_eq_some'] at h
    obtain ⟨r, hr, rfl⟩ := h
    have hc := sliceSize_le_bound d.audioFile.sampleRate numElems
    have hw := wrapPos_add_le d (sliceSize d.audioFile.sampleRate numElems) (by omega)
    simp only [readStream] at hr
    split at hr
    · cases hr
      show wrapPos d (sliceSize d.audioFile.sampleRate numElems)
        ≤ d.audioFile.numSamplesPerChannel
      omega
    · split at hr
      · exact absurd hr (by simp)
      · cases hr
        exact hw

theorem run_pos_le (tpm : Nat) (calls : List Call) :
    ∀ d d1 : WavSinkDevice, constructorChecks d.audioFile = none →
      d.pos ≤ d.audioFile.numSamplesPerChannel → run tpm d calls = some d1 →
      d1.pos ≤ d1.audioFile.numSamplesPerChannel := by
  induction calls with
  | nil =>
    intro d d1 _ hpos h
    simp only [run, Option.some.injEq] at h
    exact h ▸ hpos
  | cons c cs ih =>
    intro d d1 hok hpos h
    simp only [run] at h
    split at h
    · exact absurd h (by simp)
    · rename_i d2 h2
      have e := step_audioFile tpm d d2 c h2
      exact ih d2 d1 (e ▸ hok) (step_pos_le tpm d d2 c hok hpos h2) h

theorem step_chunkState (k : Nat) (now : Int) (buffer : Buffer) (hk : k < 8)
    (hdue : 32678 * (k : Int) + 32678 ≤ desiredNumSamples (elapsedMs 1000000 0 now) 96000) :
    step 1000000 (chunkState k) (.read ⟨SOAPY_SDR_CS16⟩ buffer 100000 now)
      = some (chunkState (k + 1)) := by
  have hc : sliceSize (chunkState k).audioFile.sampleRate 100000 = 32678 := rfl
  have hw : wrapPos (chunkState k) 32678 = 32678 * k := by
    have : ¬ (32678 * k + 32678 > 262144) := by omega
    simp only [wrapPos, chunkState, demoDevice, demoFile, this, if_false]
  have hd : ¬ desiredNumSamples (elapsedMs 1000000 (chunkState k).start_stamp now)
      (chunkState k).audioFile.sampleRate
        < (chunkState k).samples_sent
          + (sliceSize (chunkState k).audioFile.sampleRate 100000 : Int) := by
    rw [hc]
    exact not_lt.mpr hdue
  obtain ⟨out, -, hr⟩ := readStream_due_valid 1000000 (chunkState k) ⟨SOAPY_SDR_CS16⟩ buffer
    100000 now demoFile_wellFormed demoFile_checks hd
  simp only [step, hr, Option.map_some', hc, hw]
  simp only [chunkState, Nat.cast_add, Nat.cast_one, Nat.cast_ofNat, mul_add, mul_one]

theorem step_activate_demo : step 1000000 demoDevice (.activate 0 0) = some (chunkState 0) := rfl

theorem chunkState_eight : chunkState 8 = wrapDemoDevice := rfl

theorem run_cons_of_step (tpm : Nat) (d d1 : WavSinkDevice) (c : Call) (cs : List Call)
    (h : step tpm d c = some d1) : run tpm d (c :: cs) = run tpm d1 cs := by
  simp only [run, h]

theorem wrapDemoDevice_reachable : run 1000000 demoDevice demoCalls = some wrapDemoDevice := by
  unfold demoCalls
  rw [run_cons_of_step _ _ _ _ _ step_activate_demo,
    run_cons_of_step _ _ _ _ _ (step_chunkState 0 341000000 _ (by decide) (by decide)),
    run_cons_of_step _ _ _ _ _ (step_chunkState 1 681000000 _ (by decide) (by decide)),
    run_cons_of_step _ _ _ _ _ (step_chunkState 2 1022000000 _ (by decide) (by decide)),
    run_cons_of_step _ _ _ _ _ (step_chunkState 3 1362000000 _ (by decide) (by decide)),
    run_cons_of_step _ _ _ _ _ (step_chunkState 4 1702000000 _ (by decide) (by decide)),
    run_cons_of_step _ _ _ _ _ (step_chunkState 5 2043000000 _ (by decide) (by decide)),
    run_cons_of_step _ _ _ _ _ (step_chunkState 6 2383000000 _ (by decide) (by decide)),
    run_cons_of_step _ _ _ _ _ (step_chunkState 7 2724000000 _ (by decide) (by decide)),
    chunkState_eight]
  rfl

theorem create_demo :
    WavSinkDevice.create (fun _ => some demoFile) "demo.wav" = .ok demoDevice := by
  simp only [WavSinkDevice.create, demoFile_checks, demoDevice]

theorem run_append (tpm : Nat) (xs ys : List Call) :
    ∀ d : WavSinkDevice, run tpm d (xs ++ ys) = (run tpm d xs).bind (fun d1 => run tpm d1 ys) := by
  induction xs with
  | nil => intro d; rfl
  | cons c cs ih =>
    intro d
    simp only [List.cons_append, run]
    cases step tpm d c with
    | none => rfl
    | some d1 => exact ih d1

theorem step_read_due_valid (tpm : Nat) (d : WavSinkDevice) (stream : WavStream)
    (buffer : Buffer) (numElems : Nat) (now : Int) (hwf : d.audioFile.WellFormed)
    (hok : constructorChecks d.audioFile = none)
    (h : ¬ desiredNumSamples (elapsedMs tpm d.start_stamp now) d.audioFile.sampleRate
          < d.samples_sent + (sliceSize d.audioFile.sampleRate numElems : Int)) :
    step tpm d (.read stream buffer numElems now) =
      some { d with
        pos := wrapPos d (sliceSize d.audioFile.sampleRate numElems)
                + sliceSize d.audioFile.sampleRate numElems,
        samples_sent := d.samples_sent + (sliceSize d.audioFile.sampleRate numElems : Int) } := by
  obtain ⟨out, -, hr⟩ := readStream_due_valid tpm d stream buffer numElems now hwf hok h
  simp only [step, hr, Option.map_some']

theorem fullDemoDevice_reachable :
    run 1000000 demoDevice
      (demoCalls ++ [.read ⟨SOAPY_SDR_CS16⟩ zeroBuffer 720 2731000000]) = some fullDemoDevice := by
  have h : step 1000000 wrapDemoDevice (.read ⟨SOAPY_SDR_CS16⟩ zeroBuffer 720 2731000000)
      = some fullDemoDevice :=
    step_read_due_valid 1000000 wrapDemoDevice ⟨SOAPY_SDR_CS16⟩ zeroBuffer 720 2731000000
      demoFile_wellFormed demoFile_checks (by decide)
  rw [run_append, wrapDemoDevice_reachable, Option.some_bind,
    run_cons_of_step _ _ _ _ _ h]
  rfl

theorem wrapInt64_of_range (x : Int) (h1 : -2 ^ 63 ≤ x) (h2 : x < 2 ^ 63) :
    wrapInt64 x = x := by
  unfold wrapInt64
  omega

theorem wrapInt64_le (x : Int) (h : 0 ≤ x) : wrapInt64 x ≤ x := by
  unfold wrapInt64
  omega

theorem tdiv_thousand_mono (a b : Int) (hb : 0 ≤ b) (h : a ≤ b) :
    a.tdiv 1000 ≤ b.tdiv 1000 := by
  rcases lt_or_le a 0 with ha | ha
  · have h1 : a.tdiv 1000 ≤ 0 := by
      have := Int.tdiv_nonneg (a := -a) (b := 1000) (by omega) (by decide)
      rw [Int.neg_tdiv] at this
      omega
    exact le_trans h1 (Int.tdiv_nonneg hb (by decide))
  · rw [Int.tdiv_eq_ediv ha (by decide), Int.tdiv_eq_ediv hb (by decide)]
    exact Int.ediv_le_ediv (by decide) h

theorem desiredNumSamples_of_range (e : Int) (rate : Nat)
    (h1 : -2 ^ 63 ≤ e * (rate : Int)) (h2 : e * (rate : Int) < 2 ^ 63) :
    desiredNumSamples e rate = Int.tdiv (e * (rate : Int)) 1000 := by
  unfold desiredNumSamples
  rw [wrapInt64_of_range _ h1 h2]

theorem desiredNumSamples_le (e : Int) (rate : Nat) (h0 : 0 ≤ e) :
    desiredNumSamples e rate ≤ Int.tdiv (e * (rate : Int)) 1000 := by
  have hp : 0 ≤ e * (rate : Int) := Int.mul_nonneg h0 (Int.ofNat_nonneg rate)
  exact tdiv_thousand_mono _ _ hp (wrapInt64_le _ hp)

theorem due_mono (e1 e2 : Int) (rate : Nat) (h0 : 0 ≤ e1) (h : e1 ≤ e2) :
    Int.tdiv (e1 * (rate : Int)) 1000 ≤ Int.tdiv (e2 * (rate : Int)) 1000 := by
  have hr : (0 : Int) ≤ (rate : Int) := Int.ofNat_nonneg rate
  exact tdiv_thousand_mono _ _ (Int.mul_nonneg (le_trans h0 h) hr)
    (Int.mul_le_mul_of_nonneg_right h hr)

theorem readStream_sent_bounds (tpm : Nat) (d : WavSinkDevice) (stream : WavStream)
    (buffer : Buffer) (numElems : Nat) (now : Int) (r : ReadResult)
    (hr : readStream tpm d stream buffer numElems now = some r)
    (h0 : 0 ≤ d.samples_sent) (he : 0 ≤ elapsedMs tpm d.start_stamp now)
    (hle : d.samples_sent
      ≤ Int.tdiv (elapsedMs tpm d.start_stamp now * (d.audioFile.sampleRate : Int)) 1000) :
    0 ≤ r.dev.samples_sent ∧
    r.dev.samples_sent
      ≤ Int.tdiv (elapsedMs tpm d.start_stamp now * (d.audioFile.sampleRate : Int)) 1000 ∧
    r.dev.start_stamp = d.start_stamp ∧ r.dev.audioFile = d.audioFile := by
  by_cases h : desiredNumSamples (elapsedMs tpm d.start_stamp now) d.audioFile.sampleRate
      < d.samples_sent + (sliceSize d.audioFile.sampleRate numElems : Int)
  · rw [readStream_not_due tpm d stream buffer numElems now h] at hr
    cases hr
    exact ⟨h0, hle, rfl, rfl⟩
  · rw [readStream_due tpm d stream buffer numElems now h] at hr
    simp only [Option.map_eq_some'] at hr
    obtain ⟨out, -, rfl⟩ := hr
    refine ⟨?_, le_trans (not_lt.mp h) (desiredNumSamples_le _ _ he), rfl, rfl⟩
    show 0 ≤ d.samples_sent + (sliceSize d.audioFile.sampleRate numElems : Int)
    omega

theorem run_reads_bounds (tpm : Nat) (t : Int) :
    ∀ (reads : List ReadArgs) (d d1 : WavSinkDevice) (e : Int),
      d.start_stamp = t → 0 ≤ e → 0 ≤ d.samples_sent →
      d.samples_sent ≤ Int.tdiv (e * (d.audioFile.sampleRate : Int)) 1000 →
      (∀ a ∈ reads, e ≤ elapsedMs tpm t a.now) →
      List.Pairwise (fun a b => elapsedMs tpm t a.now ≤ elapsedMs tpm t b.now) reads →
      run tpm d (reads.map ReadArgs.toCall) = some d1 →
      0 ≤ d1.samples_sent ∧
      d1.samples_sent ≤ Int.tdiv
        (reads.foldl (fun _ a => elapsedMs tpm t a.now) e * (d.audioFile.sampleRate : Int))
        1000 := by
  intro reads
  induction reads with
  | nil =>
    intro d d1 e _ _ h0 hle _ _ hrun
    simp only [List.map_nil, run, Option.some.injEq] at hrun
    subst hrun
    exact ⟨h0, hle⟩
  | cons a rest ih =>
    intro d d1 e hst he h0 hle hge hpw hrun
    simp only [List.map_cons, run] at hrun
    split at hrun
    · exact absurd hrun (by simp)
    · rename_i d2 hstep
      simp only [ReadArgs.toCall, step, Option.map_eq_some'] at hstep
      obtain ⟨r, hr, rfl⟩ := hstep
      have hea : e ≤ elapsedMs tpm t a.now := hge a (List.mem_cons_self _ _)
      have hle2 : d.samples_sent
          ≤ Int.tdiv (elapsedMs tpm d.start_stamp a.now * (d.audioFile.sampleRate : Int))
              1000 := by
        rw [hst]
        exact le_trans hle (due_mono e _ _ he hea)
      obtain ⟨b0, b1, b2, b3⟩ := readStream_sent_bounds tpm d a.stream a.buffer a.numElems
        a.now r hr h0 (by rw [hst]; exact le_trans he hea) hle2
      rw [hst] at b1
      rw [List.pairwise_cons] at hpw
      have := ih r.dev d1 (elapsedMs tpm t a.now) (b2.trans hst) (le_trans he hea) b0
        (b3 ▸ b1) hpw.1 hpw.2 hrun
      rw [b3] at this
      exact this

theorem desiredNumSamples_zero (rate : Nat) : desiredNumSamples 0 rate = 0 := by
  unfold desiredNumSamples
  rw [Int.zero_mul]
  rfl

theorem fastFile_wellFormed : fastFile.WellFormed := by
  refine ⟨rfl, ?_⟩
  intro ch h
  simp only [fastFile, List.mem_cons, List.mem_singleton, List.not_mem_nil, or_false] at h
  rcases h with rfl | rfl <;> exact List.length_replicate _ _

theorem fastFile_checks : constructorChecks fastFile = none := by decide

theorem create_fast :
    WavSinkDevice.create (fun _ => some fastFile) "fast.wav" = .ok fastDevice := by
  simp only [WavSinkDevice.create, fastFile_checks, fastDevice]

theorem create_ne_missing (load : String → Option AudioFile) (name : String) :
    WavSinkDevice.create load name
      ≠ .error "Unable to create WavSink device without file_name" := by
  intro h
  unfold WavSinkDevice.create at h
  split at h
  · simp only [Except.error.injEq] at h
    have h2 := congrArg (fun s => s.data[10]?) h
    simp only [String.data_append] at h2
    rw [List.getElem?_append_left (by decide)] at h2
    exact absurd h2 (by decide)
  · rename_i af _
    split at h
    · rename_i msg hmsg
      simp only [Except.error.injEq] at h
      subst h
      unfold constructorChecks at hmsg
      split at hmsg
      · exact absurd hmsg (by decide)
      · split at hmsg
        · exact absurd hmsg (by decide)
        · split at hmsg
          · exact absurd hmsg (by decide)
          · exact absurd hmsg (by simp)
    · exact absurd h (by simp)

theorem find_demoEnv :
    findWavSinkDevice demoEnv Kwargs.empty
      = [(Kwargs.empty.set "label" "wav_sink :: rec.wav").set "file_name" "rec.wav"] := rfl

theorem fill_contents (af : AudioFile) (stream : WavStream) (p c : Nat)
    (buffer out : Buffer)
    (hout : fillLoop af (if stream.format == SOAPY_SDR_CF32 then toCF32 else toCS16)
      p c 0 buffer = some out) :
    ∀ i, i < c →
      ∃ I Q, sampleAt af 0 (p + i) = some I ∧ sampleAt af 1 (p + i) = some Q ∧
        (stream.format = SOAPY_SDR_CS16 →
          out (2 * i) = .i16 I ∧ out (2 * i + 1) = .i16 Q) ∧
        (stream.format = SOAPY_SDR_CF32 →
          out (2 * i) = .f32 ((I : Rat) / 32768) ∧
          out (2 * i + 1) = .f32 ((Q : Rat) / 32768)) := by
  intro i hi
  obtain ⟨hs, -, -⟩ := fillLoop_spec _ _ _ _ _ _ _ hout
  obtain ⟨I, Q, hI, hQ, bI, bQ⟩ := hs i hi
  have e1 : (0 + i) * 2 = 2 * i := by omega
  have e2 : 0 + i = i := by omega
  rw [e1] at bI bQ
  rw [e2] at hI hQ
  refine ⟨I, Q, hI, hQ, ?_, ?_⟩
  · intro hf
    have hne : (stream.format == SOAPY_SDR_CF32) = false := by
      rw [hf]; decide
    simp only [hne] at bI bQ
    exact ⟨bI, bQ⟩
  · intro hf
    have heq : (stream.format == SOAPY_SDR_CF32) = true := by
      rw [hf]; decide
    simp only [heq] at bI bQ
    exact ⟨bI, bQ⟩

/-! ## Claim C1 -/

/-- C1: the code computes the chunk size min(n, 32678*k) with k = 4 above 1000000,
k = 2 above 500000 and k = 1 otherwise; the baseline is 32678, not the claimed 32768.
At a rate of 96000 with 100000 requested the chunk size is 32678, at 700000 it is
65356 and at 2000000 with 1000000 requested it is 130712, not the claimed 32768,
65536 and 131072. -/
theorem C1_sliceSize_at_claimed_rates :
    (∀ r n : Nat, sliceSize r n =
      min n (32678 * (if r > 1000000 then 4 else if r > 500000 then 2 else 1))) ∧
    sliceSize 96000 100000 = 32678 ∧ sliceSize 96000 100000 ≠ min 100000 (32768 * 1) ∧
    sliceSize 700000 100000 = 65356 ∧ sliceSize 700000 100000 ≠ min 100000 (32768 * 2) ∧
    sliceSize 2000000 1000000 = 130712 ∧
      sliceSize 2000000 1000000 ≠ min 1000000 (32768 * 4) := by
  refine ⟨?_, by decide, by decide, by decide, by decide, by decide, by decide⟩
  intro r n
  simp only [sliceSize, scaledSliceSize]
  split_ifs <;> omega

/-! ## Claim C2 -/

/-- C2 (as stated, refuted): the device the constructor builds from the demo
recording is not active (it was never activated), yet a `readStream` call for 2
samples one second after the epoch returns 2, moves the position and the cumulative
count to 2 and writes the samples to the buffer. -/
theorem C2_inactive_read_delivers :
    WavSinkDevice.create (fun _ => some demoFile) "demo.wav" = .ok demoDevice ∧
    demoDevice.rx_active = false ∧
    ∃ r, readStream 1000000 demoDevice ⟨SOAPY_SDR_CS16⟩ zeroBuffer 2 1000000000 = some r ∧
      r.ret = 2 ∧ r.dev.pos = 2 ∧ r.dev.samples_sent = 2 ∧
      r.buffer 0 = .i16 16384 ∧ r.buffer 1 = .i16 (-16384) := by
  refine ⟨create_demo, rfl, ?_⟩
  obtain ⟨out, hout, hr⟩ := readStream_due_valid 1000000 demoDevice ⟨SOAPY_SDR_CS16⟩
    zeroBuffer 2 1000000000 demoFile_wellFormed demoFile_checks (by decide)
  obtain ⟨hs, -, -⟩ := fillLoop_spec _ _ _ _ _ _ _ hout
  obtain ⟨a, b, ha, hb, hI, hQ⟩ := hs 0 (by decide)
  have ea : sampleAt demoFile 0 0 = some a := ha
  have eb : sampleAt demoFile 1 0 = some b := hb
  rw [sampleAt_demoFile_I 0 (by decide)] at ea
  rw [sampleAt_demoFile_Q 0 (by decide)] at eb
  cases ea
  cases eb
  exact ⟨_, hr, rfl, rfl, rfl, hI, hQ⟩

/-- C2 (amended): `readStream` never consults the active flag and has no error return.
In a state where the source is not active it returns the same count and makes the
same changes to position, cumulative count and buffer as in the same state with the
source active, it leaves the source not active, and its return value is never
negative. -/
theorem C2_readStream_ignores_active (tpm : Nat) (d : WavSinkDevice) (stream : WavStream)
    (buffer : Buffer) (numElems : Nat) (now : Int) (h : d.rx_active = false) :
    readStream tpm d stream buffer numElems now =
      (readStream tpm { d with rx_active := true } stream buffer numElems now).map
        (fun r => { r with dev := { r.dev with rx_active := false } }) ∧
    ∀ r, readStream tpm d stream buffer numElems now = some r →
      0 ≤ r.ret ∧ r.dev.rx_active = false := by
  obtain ⟨fn, af, act, st, sent, pos⟩ := d
  simp only at h
  subst h
  constructor
  · simp only [readStream, wrapPos]
    split
    · rfl
    · cases fillLoop af (if stream.format == SOAPY_SDR_CF32 then toCF32 else toCS16)
        (if pos + sliceSize af.sampleRate numElems > af.numSamplesPerChannel then 0 else pos)
        (sliceSize af.sampleRate numElems) 0 buffer <;> rfl
  · intro r hr
    simp only [readStream, wrapPos] at hr
    split at hr
    · cases hr
      exact ⟨le_refl _, rfl⟩
    · split at hr
      · exact absurd hr (by simp)
      · cases hr
        exact ⟨Int.ofNat_nonneg _, rfl⟩

/-- C2 (amended), at a concrete input: the not active demo device. -/
theorem C2_readStream_ignores_active_witness :
    demoDevice.rx_active = false ∧
    (readStream 1000000 demoDevice ⟨SOAPY_SDR_CS16⟩ zeroBuffer 2 1000000000 =
      (readStream 1000000 { demoDevice with rx_active := true } ⟨SOAPY_SDR_CS16⟩
          zeroBuffer 2 1000000000).map
        (fun r => { r with dev := { r.dev with rx_active := false } }) ∧
    ∀ r, readStream 1000000 demoDevice ⟨SOAPY_SDR_CS16⟩ zeroBuffer 2 1000000000 = some r →
      0 ≤ r.ret ∧ r.dev.rx_active = false) :=
  ⟨rfl, C2_readStream_ignores_active 1000000 demoDevice ⟨SOAPY_SDR_CS16⟩ zeroBuffer 2
    1000000000 rfl⟩

/-! ## Claim C3 -/

/-- C3 (as stated, refuted): on the device built from a recording with sample rate
4294967295 and activated at clock 0, a read of 2 samples after 2592000000 ms (30
days) has `(e * r) / 1000` far above `s + c = 2`, yet the call returns 0, writes
nothing and leaves the cumulative count at 0: the `int64_t` product `e * r` has
left the `int64_t` range and is negative. -/
theorem C3_due_count_overflow :
    WavSinkDevice.create (fun _ => some fastFile) "fast.wav" = .ok fastDevice ∧
    activeFastDevice = (activateStream fastDevice 0 0).2 ∧
    activeFastDevice.rx_active = true ∧
    activeFastDevice.audioFile.sampleRate = 4294967295 ∧
    elapsedMs 1000000 activeFastDevice.start_stamp 2592000000000000 = 2592000000 ∧
    activeFastDevice.samples_sent + (sliceSize 4294967295 2 : Int)
      ≤ Int.tdiv (2592000000 * 4294967295) 1000 ∧
    wrapInt64 (2592000000 * 4294967295) = -7314188845069551616 ∧
    ∃ r, readStream 1000000 activeFastDevice ⟨SOAPY_SDR_CS16⟩ zeroBuffer 2 2592000000000000
        = some r ∧ r.ret = 0 ∧ r.buffer = zeroBuffer ∧ r.dev.samples_sent = 0 := by
  refine ⟨create_fast, rfl, rfl, rfl, by decide, by decide, by decide, _,
    readStream_not_due 1000000 activeFastDevice ⟨SOAPY_SDR_CS16⟩ zeroBuffer 2
      2592000000000000 (by decide), rfl, rfl, rfl⟩

/-- C3 (amended): in an active state of a device built from an accepted recording,
with `e` the whole milliseconds elapsed since the activation stamp and `r` the sample
rate such that the product `e * r` lies in the `int64_t` range, the due count is
`(e * r) / 1000` with truncating division.  With `s` the cumulative count and `c`
the chunk size: if the due count is below `s + c` the call returns 0, leaves the
buffer as it was and leaves the cumulative count at `s`; otherwise it delivers the
chunk: it returns `c`, the buffer is the one the fill loop produced and the
cumulative count is `s + c`. -/
theorem C3_pacing_check (tpm : Nat) (d : WavSinkDevice) (stream : WavStream)
    (buffer : Buffer) (numElems : Nat) (now : Int) (_hact : d.rx_active = true)
    (hwf : d.audioFile.WellFormed) (hok : constructorChecks d.audioFile = none)
    (hlo : -2 ^ 63 ≤ elapsedMs tpm d.start_stamp now * (d.audioFile.sampleRate : Int))
    (hhi : elapsedMs tpm d.start_stamp now * (d.audioFile.sampleRate : Int) < 2 ^ 63) :
    desiredNumSamples (elapsedMs tpm d.start_stamp now) d.audioFile.sampleRate =
      Int.tdiv (elapsedMs tpm d.start_stamp now * (d.audioFile.sampleRate : Int)) 1000 ∧
    (Int.tdiv (elapsedMs tpm d.start_stamp now * (d.audioFile.sampleRate : Int)) 1000
        < d.samples_sent + (sliceSize d.audioFile.sampleRate numElems : Int) →
      ∃ r, readStream tpm d stream buffer numElems now = some r ∧
        r.ret = 0 ∧ r.buffer = buffer ∧ r.dev.samples_sent = d.samples_sent) ∧
    (d.samples_sent + (sliceSize d.audioFile.sampleRate numElems : Int)
        ≤ Int.tdiv (elapsedMs tpm d.start_stamp now * (d.audioFile.sampleRate : Int)) 1000 →
      ∃ r, readStream tpm d stream buffer numElems now = some r ∧
        r.ret = (sliceSize d.audioFile.sampleRate numElems : Int) ∧
        fillLoop d.audioFile (if stream.format == SOAPY_SDR_CF32 then toCF32 else toCS16)
          (wrapPos d (sliceSize d.audioFile.sampleRate numElems))
          (sliceSize d.audioFile.sampleRate numElems) 0 buffer = some r.buffer ∧
        r.dev.samples_sent
          = d.samples_sent + (sliceSize d.audioFile.sampleRate numElems : Int)) := by
  have hd := desiredNumSamples_of_range _ _ hlo hhi
  refine ⟨hd, ?_, ?_⟩
  · intro h
    rw [← hd] at h
    exact ⟨_, readStream_not_due tpm d stream buffer numElems now h, rfl, rfl, rfl⟩
  · intro h
    rw [← hd] at h
    obtain ⟨out, hout, hr⟩ := readStream_due_valid tpm d stream buffer numElems now hwf hok
      (not_lt.mpr h)
    exact ⟨_, hr, rfl, hout, rfl⟩

/-- C3 (amended) at concrete inputs: the demo device activated at clock 0, 2 samples
requested.  After 1000 ms the product is 96000000, the due count is 96000 and the
call returns 2; after 0 ms the due count is 0 and the call returns 0 with the buffer
untouched. -/
theorem C3_pacing_check_witness :
    activeDemoDevice.rx_active = true ∧
    (∃ r, readStream 1000000 activeDemoDevice ⟨SOAPY_SDR_CS16⟩ zeroBuffer 2 1000000000
        = some r ∧ r.ret = 2 ∧ r.dev.samples_sent = 2) ∧
    (∃ r, readStream 1000000 activeDemoDevice ⟨SOAPY_SDR_CS16⟩ zeroBuffer 2 0
        = some r ∧ r.ret = 0 ∧ r.buffer = zeroBuffer ∧ r.dev.samples_sent = 0) := by
  refine ⟨rfl, ?_, ?_⟩
  · obtain ⟨r, hr, h1, -, h3⟩ := (C3_pacing_check 1000000 activeDemoDevice ⟨SOAPY_SDR_CS16⟩
      zeroBuffer 2 1000000000 rfl demoFile_wellFormed demoFile_checks (by decide)
      (by decide)).2.2 (by decide)
    exact ⟨r, hr, h1, h3⟩
  · exact (C3_pacing_check 1000000 activeDemoDevice ⟨SOAPY_SDR_CS16⟩
      zeroBuffer 2 0 rfl demoFile_wellFormed demoFile_checks (by decide) (by decide)).2.1
      (by decide)

/-! ## Claim C4 -/

/-- C4: for every state of a device built from an accepted recording, every requested
count and every clock value, `readStream` returns, and the returned count is 0 or the
chunk size, which is the minimum of the requested count and the rate scaled slice
size; it is never negative and never strictly between 0 and the chunk size. -/
theorem C4_returns_zero_or_chunk (tpm : Nat) (d : WavSinkDevice) (stream : WavStream)
    (buffer : Buffer) (numElems : Nat) (now : Int)
    (hwf : d.audioFile.WellFormed) (hok : constructorChecks d.audioFile = none) :
    ∃ r, readStream tpm d stream buffer numElems now = some r ∧
      (r.ret = 0 ∨
        r.ret = ((min numElems (scaledSliceSize d.audioFile.sampleRate) : Nat) : Int)) ∧
      0 ≤ r.ret ∧
      ¬ (0 < r.ret ∧
        r.ret < ((min numElems (scaledSliceSize d.audioFile.sampleRate) : Nat) : Int)) := by
  rw [← sliceSize_eq_min]
  by_cases h : desiredNumSamples (elapsedMs tpm d.start_stamp now) d.audioFile.sampleRate
      < d.samples_sent + (sliceSize d.audioFile.sampleRate numElems : Int)
  · refine ⟨_, readStream_not_due tpm d stream buffer numElems now h, Or.inl rfl,
      le_refl _, ?_⟩
    rintro ⟨h0, -⟩
    exact absurd h0 (lt_irrefl _)
  · obtain ⟨out, -, hr⟩ := readStream_due_valid tpm d stream buffer numElems now hwf hok h
    refine ⟨_, hr, Or.inr rfl, Int.ofNat_nonneg _, ?_⟩
    rintro ⟨-, h1⟩
    exact absurd h1 (lt_irrefl _)

/-- C4 at a concrete input: the demo device, 2 samples requested one second after the
epoch; the call returns 0 or 2. -/
theorem C4_returns_zero_or_chunk_witness :
    demoFile.WellFormed ∧ constructorChecks demoFile = none ∧
    ∃ r, readStream 1000000 demoDevice ⟨SOAPY_SDR_CF32⟩ zeroBuffer 2 1000000000 = some r ∧
      (r.ret = 0 ∨ r.ret = 2) := by
  refine ⟨demoFile_wellFormed, demoFile_checks, ?_⟩
  obtain ⟨r, hr, h, -, -⟩ := C4_returns_zero_or_chunk 1000000 demoDevice ⟨SOAPY_SDR_CF32⟩
    zeroBuffer 2 1000000000 demoFile_wellFormed demoFile_checks
  exact ⟨r, hr, h⟩

/-! ## Claim C5 -/

/-- C5 (as stated, refuted): in the state after an activation and eight chunks of
32678 samples of the demo recording, position 261424 plus the chunk size 32678
exceeds the 262144 samples of the recording; a call at 2724 ms, when the next chunk
is not yet due, returns 0 and leaves the position at 0, not at the chunk size. -/
theorem C5_wrap_not_due_position_zero :
    run 1000000 demoDevice demoCalls = some wrapDemoDevice ∧
    wrapDemoDevice.pos + sliceSize wrapDemoDevice.audioFile.sampleRate 100000
      > wrapDemoDevice.audioFile.numSamplesPerChannel ∧
    sliceSize wrapDemoDevice.audioFile.sampleRate 100000 = 32678 ∧
    ∃ r, readStream 1000000 wrapDemoDevice ⟨SOAPY_SDR_CS16⟩ zeroBuffer 100000 2724000000
        = some r ∧ r.ret = 0 ∧ r.dev.pos = 0 := by
  refine ⟨wrapDemoDevice_reachable, by decide, by decide, _,
    readStream_not_due 1000000 wrapDemoDevice
    ⟨SOAPY_SDR_CS16⟩ zeroBuffer 100000 2724000000 (by decide), rfl, rfl⟩

/-- C5 (amended): for a device built from an accepted recording, a `readStream` call
made in a state where position plus chunk size exceeds the samples per channel
returns; the position after it is the chunk size when the call delivers the chunk,
and 0 when the call returns 0 because the chunk is not yet due.  The due count is
the one the code computes (the `int64_t` product), and in either case the position
afterwards equals the returned count. -/
theorem C5_wraparound_position (tpm : Nat) (d : WavSinkDevice) (stream : WavStream)
    (buffer : Buffer) (numElems : Nat) (now : Int)
    (hwf : d.audioFile.WellFormed) (hok : constructorChecks d.audioFile = none)
    (hwrap : d.pos + sliceSize d.audioFile.sampleRate numElems
      > d.audioFile.numSamplesPerChannel) :
    ∃ r, readStream tpm d stream buffer numElems now = some r ∧
      (d.samples_sent + (sliceSize d.audioFile.sampleRate numElems : Int)
          ≤ desiredNumSamples (elapsedMs tpm d.start_stamp now) d.audioFile.sampleRate →
        r.ret = (sliceSize d.audioFile.sampleRate numElems : Int) ∧
        r.dev.pos = sliceSize d.audioFile.sampleRate numElems) ∧
      (desiredNumSamples (elapsedMs tpm d.start_stamp now) d.audioFile.sampleRate
          < d.samples_sent + (sliceSize d.audioFile.sampleRate numElems : Int) →
        r.ret = 0 ∧ r.dev.pos = 0) ∧
      (r.dev.pos : Int) = r.ret ∧
      (r.ret = 0 ∨ r.ret = (sliceSize d.audioFile.sampleRate numElems : Int)) := by
  have hw : wrapPos d (sliceSize d.audioFile.sampleRate numElems) = 0 := by
    simp only [wrapPos, if_pos hwrap]
  by_cases h : desiredNumSamples (elapsedMs tpm d.start_stamp now) d.audioFile.sampleRate
      < d.samples_sent + (sliceSize d.audioFile.sampleRate numElems : Int)
  · refine ⟨_, readStream_not_due tpm d stream buffer numElems now h, ?_, ?_, ?_, Or.inl rfl⟩
    · intro h1
      exact absurd h (not_lt.mpr h1)
    · intro _
      exact ⟨rfl, hw⟩
    · show ((wrapPos d (sliceSize d.audioFile.sampleRate numElems) : Nat) : Int) = 0
      rw [hw]
      rfl
  · obtain ⟨out, -, hr⟩ := readStream_due_valid tpm d stream buffer numElems now hwf hok h
    refine ⟨_, hr, ?_, ?_, ?_, Or.inr rfl⟩
    · intro _
      refine ⟨rfl, ?_⟩
      show wrapPos d (sliceSize d.audioFile.sampleRate numElems)
        + sliceSize d.audioFile.sampleRate numElems = _
      rw [hw, Nat.zero_add]
    · intro h1
      exact absurd h1 h
    · show ((wrapPos d (sliceSize d.audioFile.sampleRate numElems)
        + sliceSize d.audioFile.sampleRate numElems : Nat) : Int) = _
      rw [hw, Nat.zero_add]

/-- C5 (amended) at a concrete input: the state after eight chunks of the demo
recording, where a call at 3100 ms delivers the next chunk and leaves the position
at the chunk size 32678. -/
theorem C5_wraparound_position_witness :
    demoFile.WellFormed ∧ constructorChecks demoFile = none ∧
    wrapDemoDevice.pos + sliceSize wrapDemoDevice.audioFile.sampleRate 100000
      > wrapDemoDevice.audioFile.numSamplesPerChannel ∧
    ∃ r, readStream 1000000 wrapDemoDevice ⟨SOAPY_SDR_CS16⟩ zeroBuffer 100000 3100000000
        = some r ∧ r.ret = 32678 ∧ r.dev.pos = 32678 := by
  refine ⟨demoFile_wellFormed, demoFile_checks, by decide, ?_⟩
  obtain ⟨r, hr, h, -⟩ := C5_wraparound_position 1000000 wrapDemoDevice ⟨SOAPY_SDR_CS16⟩
    zeroBuffer 100000 3100000000 demoFile_wellFormed demoFile_checks (by decide)
  exact ⟨r, hr, h (by decide)⟩

/-! ## Claim C6 -/

/-- C6: for every recording the constructor accepts (two channels of equal length
N, at least 262144) and every sequence of `activateStream`, `deactivateStream` and
`readStream` calls with any arguments, the sequence runs to a state, and in that
state every further `readStream` call returns and every index `position + idx`
(`idx` below the chunk size) it reads in a channel array is below N, so both reads
are inside the arrays. -/
theorem C6_reads_in_range (tpm : Nat) (load : String → Option AudioFile)
    (file_name : String) (d0 : WavSinkDevice) (calls : List Call)
    (hwf : ∀ af, load file_name = some af → af.WellFormed)
    (hcreate : WavSinkDevice.create load file_name = .ok d0) :
    ∃ d, run tpm d0 calls = some d ∧
      ∀ (stream : WavStream) (buffer : Buffer) (numElems : Nat) (now : Int),
        (∃ r, readStream tpm d stream buffer numElems now = some r) ∧
        ∀ idx, idx < sliceSize d.audioFile.sampleRate numElems →
          wrapPos d (sliceSize d.audioFile.sampleRate numElems) + idx
            < d.audioFile.numSamplesPerChannel ∧
          (∃ a, sampleAt d.audioFile 0
            (wrapPos d (sliceSize d.audioFile.sampleRate numElems) + idx) = some a) ∧
          (∃ b, sampleAt d.audioFile 1
            (wrapPos d (sliceSize d.audioFile.sampleRate numElems) + idx) = some b) := by
  obtain ⟨af, haf, hchk, rfl⟩ := create_ok load file_name d0 hcreate
  have hwf0 := hwf af haf
  obtain ⟨d, hd, he⟩ := run_some_of_valid tpm calls
    { file_name := file_name, audioFile := af, rx_active := false,
      start_stamp := 0, samples_sent := 0, pos := 0 } hwf0 hchk
  simp only at he
  have hwfd : d.audioFile.WellFormed := he ▸ hwf0
  have hokd : constructorChecks d.audioFile = none := he ▸ hchk
  refine ⟨d, hd, ?_⟩
  intro stream buffer numElems now
  refine ⟨readStream_some_of_valid tpm d stream buffer numElems now hwfd hokd, ?_⟩
  intro idx hidx
  obtain ⟨h2, -, hN⟩ := constructorChecks_none _ hokd
  have hc := sliceSize_le_bound d.audioFile.sampleRate numElems
  have hw := wrapPos_add_le d (sliceSize d.audioFile.sampleRate numElems) (by omega)
  exact ⟨by omega, sampleAt_of_wellFormed _ hwfd 0 _ (by omega) (by omega),
    sampleAt_of_wellFormed _ hwfd 1 _ (by omega) (by omega)⟩

/-- C6 at a concrete input: the demo recording, then an activation, a read of 2
samples after one second and a deactivation; a further read of up to 100000 samples
returns. -/
theorem C6_reads_in_range_witness :
    (∀ af, (fun _ => some demoFile) "demo.wav" = some af → af.WellFormed) ∧
    WavSinkDevice.create (fun _ => some demoFile) "demo.wav" = .ok demoDevice ∧
    ∃ d, run 1000000 demoDevice
        [.activate 0 0, .read ⟨SOAPY_SDR_CS16⟩ zeroBuffer 2 1000000000, .deactivate 0]
          = some d ∧
      ∃ r, readStream 1000000 d ⟨SOAPY_SDR_CF32⟩ zeroBuffer 100000 5000000000 = some r := by
  have h1 : ∀ af, (fun _ => some demoFile) "demo.wav" = some af → af.WellFormed := by
    intro af h
    simp only [Option.some.injEq] at h
    exact h ▸ demoFile_wellFormed
  have h2 : WavSinkDevice.create (fun _ => some demoFile) "demo.wav" = .ok demoDevice :=
    create_demo
  obtain ⟨d, hd, h⟩ := C6_reads_in_range 1000000 (fun _ => some demoFile) "demo.wav"
    demoDevice [.activate 0 0, .read ⟨SOAPY_SDR_CS16⟩ zeroBuffer 2 1000000000, .deactivate 0]
    h1 h2
  exact ⟨h1, h2, d, hd, (h ⟨SOAPY_SDR_CF32⟩ zeroBuffer 100000 5000000000).1⟩

/-! ## Claim C7 -/

/-- C7: a `readStream` call that delivers a chunk of size `c` from read position `p`
(the position after the wraparound check) leaves, for every `i < c`, the channel 0
sample at `p + i` in slot `2 i` and the channel 1 sample at `p + i` in slot `2 i + 1`:
unchanged 16 bit values for the format CS16, the values divided by 32768 for the
format CF32.  Delivery is stated in both ways: when the due count the code computes
(the `int64_t` product) reaches `s + c` the call returns `c` with these contents, and
every call that returns a non-zero count leaves these contents.  The stored pair
(16384, -16384) is written as (1/2, -1/2) in CF32 and as (16384, -16384) in CS16. -/
theorem C7_buffer_contents (tpm : Nat) (d : WavSinkDevice) (stream : WavStream)
    (buffer : Buffer) (numElems : Nat) (now : Int)
    (hwf : d.audioFile.WellFormed) (hok : constructorChecks d.audioFile = none)
    (hdue : d.samples_sent + (sliceSize d.audioFile.sampleRate numElems : Int)
      ≤ desiredNumSamples (elapsedMs tpm d.start_stamp now) d.audioFile.sampleRate) :
    (∃ r, readStream tpm d stream buffer numElems now = some r ∧
      r.ret = (sliceSize d.audioFile.sampleRate numElems : Int) ∧
      ∀ i, i < sliceSize d.audioFile.sampleRate numElems →
        ∃ I Q,
          sampleAt d.audioFile 0
            (wrapPos d (sliceSize d.audioFile.sampleRate numElems) + i) = some I ∧
          sampleAt d.audioFile 1
            (wrapPos d (sliceSize d.audioFile.sampleRate numElems) + i) = some Q ∧
          (stream.format = SOAPY_SDR_CS16 →
            r.buffer (2 * i) = .i16 I ∧ r.buffer (2 * i + 1) = .i16 Q) ∧
          (stream.format = SOAPY_SDR_CF32 →
            r.buffer (2 * i) = .f32 ((I : Rat) / 32768) ∧
            r.buffer (2 * i + 1) = .f32 ((Q : Rat) / 32768))) ∧
    (∀ (now2 : Int) (r : ReadResult),
      readStream tpm d stream buffer numElems now2 = some r → r.ret ≠ 0 →
      r.ret = (sliceSize d.audioFile.sampleRate numElems : Int) ∧
      ∀ i, i < sliceSize d.audioFile.sampleRate numElems →
        ∃ I Q,
          sampleAt d.audioFile 0
            (wrapPos d (sliceSize d.audioFile.sampleRate numElems) + i) = some I ∧
          sampleAt d.audioFile 1
            (wrapPos d (sliceSize d.audioFile.sampleRate numElems) + i) = some Q ∧
          (stream.format = SOAPY_SDR_CS16 →
            r.buffer (2 * i) = .i16 I ∧ r.buffer (2 * i + 1) = .i16 Q) ∧
          (stream.format = SOAPY_SDR_CF32 →
            r.buffer (2 * i) = .f32 ((I : Rat) / 32768) ∧
            r.buffer (2 * i + 1) = .f32 ((Q : Rat) / 32768))) ∧
    toCF32 16384 = .f32 (1 / 2) ∧ toCF32 (-16384) = .f32 (-1 / 2) ∧
    toCS16 16384 = .i16 16384 ∧ toCS16 (-16384) = .i16 (-16384) := by
  refine ⟨?_, ?_, ?_, ?_, rfl, rfl⟩
  · obtain ⟨out, hout, hr⟩ := readStream_due_valid tpm d stream buffer numElems now hwf hok
      (not_lt.mpr hdue)
    exact ⟨_, hr, rfl, fill_contents _ _ _ _ _ _ hout⟩
  · intro now2 r hr hne
    by_cases h : desiredNumSamples (elapsedMs tpm d.start_stamp now2) d.audioFile.sampleRate
        < d.samples_sent + (sliceSize d.audioFile.sampleRate numElems : Int)
    · rw [readStream_not_due tpm d stream buffer numElems now2 h] at hr
      cases hr
      exact absurd rfl hne
    · obtain ⟨out, hout, hr2⟩ := readStream_due_valid tpm d stream buffer numElems now2
        hwf hok h
      rw [hr2] at hr
      cases hr
      exact ⟨rfl, fill_contents _ _ _ _ _ _ hout⟩
  · simp only [toCF32, Elem.f32.injEq]
    norm_num
  · simp only [toCF32, Elem.f32.injEq]
    norm_num

/-- C7 at a concrete input: the demo recording stores the pair (16384, -16384) at
every position; a delivered chunk of 2 samples holds (1/2, -1/2) in slots 0 and 1 in
the format CF32. -/
theorem C7_buffer_contents_witness :
    demoFile.WellFormed ∧ constructorChecks demoFile = none ∧
    ∃ r, readStream 1000000 activeDemoDevice ⟨SOAPY_SDR_CF32⟩ zeroBuffer 2 1000000000
        = some r ∧ r.ret = 2 ∧ r.buffer 0 = .f32 (1 / 2) ∧ r.buffer 1 = .f32 (-1 / 2) := by
  refine ⟨demoFile_wellFormed, demoFile_checks, ?_⟩
  obtain ⟨⟨r, hr, hret, h⟩, -, h5, h6, -, -⟩ := C7_buffer_contents 1000000 activeDemoDevice
    ⟨SOAPY_SDR_CF32⟩ zeroBuffer 2 1000000000 demoFile_wellFormed demoFile_checks (by decide)
  obtain ⟨I, Q, hI, hQ, -, hb⟩ := h 0 (by decide)
  have eI : sampleAt demoFile 0 0 = some I := hI
  have eQ : sampleAt demoFile 1 0 = some Q := hQ
  rw [sampleAt_demoFile_I 0 (by decide)] at eI
  rw [sampleAt_demoFile_Q 0 (by decide)] at eQ
  cases eI
  cases eQ
  obtain ⟨b0, b1⟩ := hb rfl
  simp only [toCF32, Elem.f32.injEq] at h5 h6
  refine ⟨r, hr, hret, ?_, ?_⟩
  · rw [show (0 : Nat) = 2 * 0 from rfl, b0, Elem.f32.injEq]; exact h5
  · rw [show (1 : Nat) = 2 * 0 + 1 from rfl, b1, Elem.f32.injEq]; exact h6

/-! ## Claim C8 -/

/-- C8: from every device state and at every clock value `t`, `activateStream` with
flags 0 returns 0 (success) and leaves active true, cumulative count 0, position 0
and the activation stamp equal to `t`; the file name and the recording are kept. -/
theorem C8_activate_resets (d : WavSinkDevice) (t : Int) :
    (activateStream d 0 t).1 = 0 ∧
    (activateStream d 0 t).2.rx_active = true ∧
    (activateStream d 0 t).2.samples_sent = 0 ∧
    (activateStream d 0 t).2.pos = 0 ∧
    (activateStream d 0 t).2.start_stamp = t ∧
    (activateStream d 0 t).2.audioFile = d.audioFile ∧
    (activateStream d 0 t).2.file_name = d.file_name :=
  ⟨rfl, rfl, rfl, rfl, rfl, rfl, rfl⟩

/-! ## Claim C9 -/

/-- C9: for every device state and every flags value other than 0, `activateStream`
and `deactivateStream` both return the not supported error code, which differs from
the success value 0, and leave the whole device state unchanged. -/
theorem C9_flags_not_supported (d : WavSinkDevice) (flags : Int) (t : Int)
    (hflags : flags ≠ 0) :
    activateStream d flags t = (SOAPY_SDR_NOT_SUPPORTED, d) ∧
    deactivateStream d flags = (SOAPY_SDR_NOT_SUPPORTED, d) ∧
    SOAPY_SDR_NOT_SUPPORTED ≠ 0 := by
  have h : (flags != 0) = true := by simpa using hflags
  refine ⟨?_, ?_, by decide⟩
  · simp only [activateStream, h, if_true]
  · simp only [deactivateStream, h, if_true]

/-- C9 at a concrete input: flags 1 on the state after eight delivered chunks. -/
theorem C9_flags_not_supported_witness :
    (1 : Int) ≠ 0 ∧
    activateStream wrapDemoDevice 1 5000 = (SOAPY_SDR_NOT_SUPPORTED, wrapDemoDevice) ∧
    deactivateStream wrapDemoDevice 1 = (SOAPY_SDR_NOT_SUPPORTED, wrapDemoDevice) :=
  ⟨by decide, (C9_flags_not_supported wrapDemoDevice 1 5000 (by decide)).1,
    (C9_flags_not_supported wrapDemoDevice 1 5000 (by decide)).2.1⟩

/-! ## Claim C10 -/

/-- C10: for every device state, a second `deactivateStream` with flags 0 returns 0
and leaves the state of the first one unchanged; a second `activateStream` with flags
0, at any later clock value, returns 0 and leaves the same active flag, position and
cumulative count as the first one (only the activation stamp is taken anew). -/
theorem C10_idempotent (d : WavSinkDevice) (t1 t2 : Int) :
    deactivateStream (deactivateStream d 0).2 0 = (0, (deactivateStream d 0).2) ∧
    (activateStream (activateStream d 0 t1).2 0 t2).1 = 0 ∧
    (activateStream (activateStream d 0 t1).2 0 t2).2.rx_active
      = (activateStream d 0 t1).2.rx_active ∧
    (activateStream (activateStream d 0 t1).2 0 t2).2.pos = (activateStream d 0 t1).2.pos ∧
    (activateStream (activateStream d 0 t1).2 0 t2).2.samples_sent
      = (activateStream d 0 t1).2.samples_sent ∧
    (activateStream (activateStream d 0 t1).2 0 t2).2
      = { (activateStream d 0 t1).2 with start_stamp := t2 } :=
  ⟨rfl, rfl, rfl, rfl, rfl, rfl⟩

/-! ## Claim C11 -/

/-- C11 (as stated, refuted): on the device built from the demo recording of 262144
samples per channel, an activation, eight delivered chunks of 32678 samples and a
delivered chunk of 720 samples lead to position 262144, which is not below the
number of samples per channel. -/
theorem C11_position_reaches_end :
    WavSinkDevice.create (fun _ => some demoFile) "demo.wav" = .ok demoDevice ∧
    run 1000000 demoDevice
      (demoCalls ++ [.read ⟨SOAPY_SDR_CS16⟩ zeroBuffer 720 2731000000]) = some fullDemoDevice ∧
    fullDemoDevice.pos = 262144 ∧ fullDemoDevice.audioFile.numSamplesPerChannel = 262144 ∧
    ¬ (fullDemoDevice.pos < fullDemoDevice.audioFile.numSamplesPerChannel) :=
  ⟨create_demo, fullDemoDevice_reachable, rfl, rfl, by decide⟩

/-- C11 (amended): for every recording the constructor accepts, with N samples per
channel, every sequence of `activateStream`, `deactivateStream` and `readStream`
calls runs to a state, and that state satisfies 0 ≤ position ≤ N. -/
theorem C11_position_le (tpm : Nat) (load : String → Option AudioFile)
    (file_name : String) (d0 : WavSinkDevice) (calls : List Call)
    (hwf : ∀ af, load file_name = some af → af.WellFormed)
    (hcreate : WavSinkDevice.create load file_name = .ok d0) :
    ∃ d, run tpm d0 calls = some d ∧
      0 ≤ d.pos ∧ d.pos ≤ d.audioFile.numSamplesPerChannel ∧
      d.audioFile.numSamplesPerChannel = d0.audioFile.numSamplesPerChannel := by
  obtain ⟨af, haf, hchk, rfl⟩ := create_ok load file_name d0 hcreate
  obtain ⟨d, hd, he⟩ := run_some_of_valid tpm calls
    { file_name := file_name, audioFile := af, rx_active := false,
      start_stamp := 0, samples_sent := 0, pos := 0 } (hwf af haf) hchk
  refine ⟨d, hd, Nat.zero_le _, ?_, by rw [he]⟩
  exact run_pos_le tpm calls _ d hchk (Nat.zero_le _) hd

/-- C11 (amended) at a concrete input: the demo recording and the calls `demoCalls`;
the position 261424 reached is at most 262144. -/
theorem C11_position_le_witness :
    (∀ af, (fun _ => some demoFile) "demo.wav" = some af → af.WellFormed) ∧
    WavSinkDevice.create (fun _ => some demoFile) "demo.wav" = .ok demoDevice ∧
    ∃ d, run 1000000 demoDevice demoCalls = some d ∧ d.pos = 261424 ∧ d.pos ≤ 262144 := by
  have h1 : ∀ af, (fun _ => some demoFile) "demo.wav" = some af → af.WellFormed := by
    intro af h
    simp only [Option.some.injEq] at h
    exact h ▸ demoFile_wellFormed
  obtain ⟨d, hd, -, hle, hN⟩ := C11_position_le 1000000 (fun _ => some demoFile) "demo.wav"
    demoDevice demoCalls h1 create_demo
  have e : d = wrapDemoDevice := by
    rw [wrapDemoDevice_reachable] at hd
    exact (Option.some.inj hd).symm
  subst e
  exact ⟨h1, create_demo, _, wrapDemoDevice_reachable, rfl, by decide⟩

/-! ## Claim C12 -/

/-- C12 (as stated, refuted): on the activated demo device a read of 96 samples at
1 ms delivers them; a second read of 96 samples at the same clock value is not yet
due and returns 0, so the cumulative count (96) and the position (96) after the
second call equal those after the first, with no wraparound. -/
theorem C12_second_read_not_due :
    activeDemoDevice.rx_active = true ∧
    ∃ r1 r2,
      readStream 1000000 activeDemoDevice ⟨SOAPY_SDR_CS16⟩ zeroBuffer 96 1000000 = some r1 ∧
      readStream 1000000 r1.dev ⟨SOAPY_SDR_CS16⟩ r1.buffer 96 1000000 = some r2 ∧
      r1.ret = 96 ∧ r2.ret = 0 ∧
      r1.dev.samples_sent = 96 ∧ r2.dev.samples_sent = 96 ∧
      r1.dev.pos = 96 ∧ r2.dev.pos = 96 := by
  obtain ⟨out, -, hr⟩ := readStream_due_valid 1000000 activeDemoDevice ⟨SOAPY_SDR_CS16⟩
    zeroBuffer 96 1000000 demoFile_wellFormed demoFile_checks (by decide)
  have h2 := readStream_not_due 1000000
    { activeDemoDevice with
      pos := wrapPos activeDemoDevice (sliceSize activeDemoDevice.audioFile.sampleRate 96)
              + sliceSize activeDemoDevice.audioFile.sampleRate 96,
      samples_sent := activeDemoDevice.samples_sent
              + (sliceSize activeDemoDevice.audioFile.sampleRate 96 : Int) }
    ⟨SOAPY_SDR_CS16⟩ out 96 1000000 (by decide)
  exact ⟨rfl, _, _, hr, h2, rfl, rfl, rfl, rfl, rfl, rfl⟩

/-- C12 (amended): for an active state of a device built from an accepted recording,
two sequential `readStream` calls with no activation in between both return; the
cumulative count after the second call is never below that after the first; when
the second call returns a non-zero count the cumulative count has grown by the
chunk size, hence strictly, and the position has grown strictly unless the second
call wrapped around; when it returns 0 the cumulative count is unchanged. -/
theorem C12_sequential_reads (tpm : Nat) (d : WavSinkDevice) (stream : WavStream)
    (buffer1 buffer2 : Buffer) (n1 n2 : Nat) (now1 now2 : Int)
    (_hact : d.rx_active = true)
    (hwf : d.audioFile.WellFormed) (hok : constructorChecks d.audioFile = none) :
    ∃ r1 r2,
      readStream tpm d stream buffer1 n1 now1 = some r1 ∧
      readStream tpm r1.dev stream buffer2 n2 now2 = some r2 ∧
      r1.dev.samples_sent ≤ r2.dev.samples_sent ∧
      (r2.ret ≠ 0 →
        r2.dev.samples_sent = r1.dev.samples_sent + (sliceSize d.audioFile.sampleRate n2 : Int) ∧
        r1.dev.samples_sent < r2.dev.samples_sent ∧
        (r1.dev.pos + sliceSize d.audioFile.sampleRate n2 ≤ d.audioFile.numSamplesPerChannel →
          r1.dev.pos < r2.dev.pos)) ∧
      (r2.ret = 0 → r2.dev.samples_sent = r1.dev.samples_sent) := by
  obtain ⟨r1, h1⟩ := readStream_some_of_valid tpm d stream buffer1 n1 now1 hwf hok
  have ea := readStream_audioFile tpm d stream buffer1 n1 now1 r1 h1
  have hwf1 : r1.dev.audioFile.WellFormed := ea ▸ hwf
  have hok1 : constructorChecks r1.dev.audioFile = none := ea ▸ hok
  rw [← ea]
  refine ⟨r1, ?_⟩
  by_cases h : desiredNumSamples (elapsedMs tpm r1.dev.start_stamp now2)
      r1.dev.audioFile.sampleRate
        < r1.dev.samples_sent + (sliceSize r1.dev.audioFile.sampleRate n2 : Int)
  · refine ⟨_, h1, readStream_not_due tpm r1.dev stream buffer2 n2 now2 h, le_refl _, ?_, ?_⟩
    · intro hne
      exact absurd rfl hne
    · intro _
      rfl
  · obtain ⟨out, -, hr⟩ := readStream_due_valid tpm r1.dev stream buffer2 n2 now2 hwf1 hok1 h
    refine ⟨_, h1, hr, ?_, ?_, ?_⟩
    · show r1.dev.samples_sent
        ≤ r1.dev.samples_sent + (sliceSize r1.dev.audioFile.sampleRate n2 : Int)
      omega
    · intro hne
      have hpos : 0 < sliceSize r1.dev.audioFile.sampleRate n2 := by
        rcases Nat.eq_zero_or_pos (sliceSize r1.dev.audioFile.sampleRate n2) with h0 | h0
        · exact absurd (by rw [h0]; rfl) hne
        · exact h0
      refine ⟨rfl, ?_, ?_⟩
      · show r1.dev.samples_sent
          < r1.dev.samples_sent + (sliceSize r1.dev.audioFile.sampleRate n2 : Int)
        omega
      · intro hnw
        show r1.dev.pos < wrapPos r1.dev (sliceSize r1.dev.audioFile.sampleRate n2)
          + sliceSize r1.dev.audioFile.sampleRate n2
        have hw : wrapPos r1.dev (sliceSize r1.dev.audioFile.sampleRate n2) = r1.dev.pos := by
          simp only [wrapPos, if_neg (not_lt.mpr hnw)]
        omega
    · intro h0
      have hz : sliceSize r1.dev.audioFile.sampleRate n2 = 0 := by
        have : (sliceSize r1.dev.audioFile.sampleRate n2 : Int) = 0 := h0
        omega
      show r1.dev.samples_sent + (sliceSize r1.dev.audioFile.sampleRate n2 : Int)
        = r1.dev.samples_sent
      omega

/-- C12 (amended) at a concrete input: on the activated demo device a read of 96
samples at 1 ms and a read of 96 samples at 2 ms; the cumulative count does not
decrease. -/
theorem C12_sequential_reads_witness :
    activeDemoDevice.rx_active = true ∧ demoFile.WellFormed ∧
    constructorChecks demoFile = none ∧
    ∃ r1 r2,
      readStream 1000000 activeDemoDevice ⟨SOAPY_SDR_CS16⟩ zeroBuffer 96 1000000 = some r1 ∧
      readStream 1000000 r1.dev ⟨SOAPY_SDR_CS16⟩ zeroBuffer 96 2000000 = some r2 ∧
      r1.dev.samples_sent ≤ r2.dev.samples_sent := by
  obtain ⟨r1, r2, h1, h2, h3, -, -⟩ := C12_sequential_reads 1000000 activeDemoDevice
    ⟨SOAPY_SDR_CS16⟩ zeroBuffer zeroBuffer 96 96 1000000 2000000 rfl demoFile_wellFormed
    demoFile_checks
  exact ⟨rfl, demoFile_wellFormed, demoFile_checks, r1, r2, h1, h2, h3⟩

/-! ## Claim C13 -/

/-- C13: from every device state, at every sample rate and for every requested count,
a `readStream` call made at the clock value of a preceding `activateStream` with
flags 0 (zero elapsed milliseconds) returns 0; it leaves the buffer and the
cumulative count 0 unchanged. -/
theorem C13_first_read_returns_zero (tpm : Nat) (d : WavSinkDevice) (stream : WavStream)
    (buffer : Buffer) (numElems : Nat) (t : Int) :
    (activateStream d 0 t).1 = 0 ∧
    elapsedMs tpm (activateStream d 0 t).2.start_stamp t = 0 ∧
    ∃ r, readStream tpm (activateStream d 0 t).2 stream buffer numElems t = some r ∧
      r.ret = 0 ∧ r.buffer = buffer ∧ r.dev.samples_sent = 0 := by
  have he : elapsedMs tpm (activateStream d 0 t).2.start_stamp t = 0 := by
    show Int.tdiv (t - t) tpm = 0
    rw [Int.sub_self, Int.zero_tdiv]
  refine ⟨rfl, he, ?_⟩
  rcases Nat.eq_zero_or_pos (sliceSize (activateStream d 0 t).2.audioFile.sampleRate numElems)
    with h0 | h0
  · have hnd : ¬ desiredNumSamples (elapsedMs tpm (activateStream d 0 t).2.start_stamp t)
        (activateStream d 0 t).2.audioFile.sampleRate
        < (activateStream d 0 t).2.samples_sent
          + (sliceSize (activateStream d 0 t).2.audioFile.sampleRate numElems : Int) := by
      rw [he, h0, desiredNumSamples_zero]
      show ¬ (0 : Int) < (0 : Int) + ((0 : Nat) : Int)
      decide
    rw [readStream_due tpm _ stream buffer numElems t hnd, h0]
    exact ⟨_, rfl, rfl, rfl, rfl⟩
  · have hnd : desiredNumSamples (elapsedMs tpm (activateStream d 0 t).2.start_stamp t)
        (activateStream d 0 t).2.audioFile.sampleRate
        < (activateStream d 0 t).2.samples_sent
          + (sliceSize (activateStream d 0 t).2.audioFile.sampleRate numElems : Int) := by
      rw [he, desiredNumSamples_zero]
      show (0 : Int) < (0 : Int) + _
      omega
    exact ⟨_, readStream_not_due tpm _ stream buffer numElems t hnd, rfl, rfl, rfl⟩

/-! ## Claim C14 -/

/-- C14: for every loader and file name, the constructor produces a device exactly
when the load succeeded with 2 channels, bit depth 16 and at least 262144
(256 * 1024) samples per channel; the device then holds that recording in the
initial state.  In every other case the constructor throws and no device is
produced. -/
theorem C14_constructor_accepts_iff (load : String → Option AudioFile) (file_name : String) :
    ((∃ d, WavSinkDevice.create load file_name = .ok d) ↔
      ∃ af, load file_name = some af ∧ af.numChannels = 2 ∧ af.bitDepth = 16 ∧
        256 * 1024 ≤ af.numSamplesPerChannel) ∧
    (∀ d, WavSinkDevice.create load file_name = .ok d →
      load file_name = some d.audioFile ∧ d.file_name = file_name ∧
      d.rx_active = false ∧ d.samples_sent = 0 ∧ d.pos = 0) ∧
    ((¬ ∃ af, load file_name = some af ∧ af.numChannels = 2 ∧ af.bitDepth = 16 ∧
        256 * 1024 ≤ af.numSamplesPerChannel) →
      ∃ msg, WavSinkDevice.create load file_name = .error msg) ∧
    (256 * 1024 : Nat) = 262144 := by
  refine ⟨⟨?_, ?_⟩, ?_, ?_, rfl⟩
  · rintro ⟨d, hd⟩
    obtain ⟨af, haf, hchk, -⟩ := create_ok load file_name d hd
    obtain ⟨h1, h2, h3⟩ := constructorChecks_none af hchk
    exact ⟨af, haf, h1, h2, by omega⟩
  · rintro ⟨af, haf, h1, h2, h3⟩
    have hchk : constructorChecks af = none := by
      have h4 : ¬ af.numSamplesPerChannel < 256 * 1024 := by omega
      simp [constructorChecks, h1, h2, h4]
    exact ⟨{ file_name := file_name, audioFile := af, rx_active := false,
             start_stamp := 0, samples_sent := 0, pos := 0 },
      by simp only [WavSinkDevice.create, haf, hchk]⟩
  · intro d hd
    obtain ⟨af, haf, -, rfl⟩ := create_ok load file_name d hd
    exact ⟨haf, rfl, rfl, rfl, rfl⟩
  · intro hno
    cases hres : WavSinkDevice.create load file_name with
    | error msg => exact ⟨msg, rfl⟩
    | ok d =>
      obtain ⟨af, haf, hchk, -⟩ := create_ok load file_name d hres
      obtain ⟨h1, h2, h3⟩ := constructorChecks_none af hchk
      exact absurd ⟨af, haf, h1, h2, by omega⟩ hno

/-! ## Claim C15 -/

/-- C15: in the receive direction `setupStream` succeeds for a format string exactly
when the string is listed by `getStreamFormats`, that is when it is CS16 or CF32,
and the session it returns holds that string; `getNativeStreamFormat` reports CS16
with full scale 32768, and CS16 is in the list. -/
theorem C15_setupStream_formats (f : String) (channel : Nat) :
    getStreamFormats SOAPY_SDR_RX channel = [SOAPY_SDR_CS16, SOAPY_SDR_CF32] ∧
    ((∃ st, setupStream SOAPY_SDR_RX f = .ok st) ↔
      f ∈ getStreamFormats SOAPY_SDR_RX channel) ∧
    (∀ st, setupStream SOAPY_SDR_RX f = .ok st → st.format = f) ∧
    (f ∉ getStreamFormats SOAPY_SDR_RX channel →
      ∃ msg, setupStream SOAPY_SDR_RX f = .error msg) ∧
    getNativeStreamFormat SOAPY_SDR_RX channel = .ok (SOAPY_SDR_CS16, 32768) ∧
    SOAPY_SDR_CS16 ∈ getStreamFormats SOAPY_SDR_RX channel := by
  have hdir : (SOAPY_SDR_RX != SOAPY_SDR_RX) = false := by decide
  by_cases h1 : f = SOAPY_SDR_CS16
  · have hs : setupStream SOAPY_SDR_RX f = .ok { format := f } := by
      simp [setupStream, h1]
    refine ⟨rfl, ⟨fun _ => by simp [getStreamFormats, h1], fun _ => ⟨_, hs⟩⟩, ?_, ?_, rfl,
      by simp [getStreamFormats]⟩
    · intro st hst
      rw [hs] at hst
      cases hst
      rfl
    · intro hn
      exact absurd (by simp [getStreamFormats, h1]) hn
  · by_cases h2 : f = SOAPY_SDR_CF32
    · have hs : setupStream SOAPY_SDR_RX f = .ok { format := f } := by
        simp [setupStream, h2]
      refine ⟨rfl, ⟨fun _ => by simp [getStreamFormats, h2], fun _ => ⟨_, hs⟩⟩, ?_, ?_, rfl,
        by simp [getStreamFormats]⟩
      · intro st hst
        rw [hs] at hst
        cases hst
        rfl
      · intro hn
        exact absurd (by simp [getStreamFormats, h2]) hn
    · have hs : ∃ msg, setupStream SOAPY_SDR_RX f = .error msg := by
        refine ⟨"setupStream invalid format \x27" ++ f
          ++ "\x27 -- Only CS16, CF32 are supported by WavSink module.", ?_⟩
        simp [setupStream, hdir, h1, h2]
      obtain ⟨msg, hmsg⟩ := hs
      have hmem : f ∉ getStreamFormats SOAPY_SDR_RX channel := by
        simp [getStreamFormats, h1, h2]
      refine ⟨rfl, ⟨?_, fun hm => absurd hm hmem⟩, ?_, fun _ => ⟨msg, hmsg⟩, rfl,
        by simp [getStreamFormats]⟩
      · rintro ⟨st, hst⟩
        rw [hmsg] at hst
        cases hst
      · intro st hst
        rw [hmsg] at hst
        cases hst

/-! ## Claim C16 -/

/-- C16: for every device state `deactivateStream` with flags 0 returns 0, sets the
active flag to false and leaves position, cumulative count, activation stamp, file
name and recording as they were; every `readStream` call leaves the active flag and
the activation stamp (and the recording) unchanged, and it returns for every device
built from an accepted recording. -/
theorem C16_frame (tpm : Nat) (d : WavSinkDevice) (stream : WavStream) (buffer : Buffer)
    (numElems : Nat) (now : Int) :
    deactivateStream d 0 = (0, { d with rx_active := false }) ∧
    (deactivateStream d 0).2.rx_active = false ∧
    (deactivateStream d 0).2.pos = d.pos ∧
    (deactivateStream d 0).2.samples_sent = d.samples_sent ∧
    (deactivateStream d 0).2.start_stamp = d.start_stamp ∧
    (∀ r, readStream tpm d stream buffer numElems now = some r →
      r.dev.rx_active = d.rx_active ∧ r.dev.start_stamp = d.start_stamp ∧
      r.dev.audioFile = d.audioFile ∧ r.dev.file_name = d.file_name) ∧
    (d.audioFile.WellFormed → constructorChecks d.audioFile = none →
      ∃ r, readStream tpm d stream buffer numElems now = some r) := by
  refine ⟨rfl, rfl, rfl, rfl, rfl, ?_, ?_⟩
  · intro r hr
    simp only [readStream] at hr
    split at hr
    · cases hr
      exact ⟨rfl, rfl, rfl, rfl⟩
    · split at hr
      · exact absurd hr (by simp)
      · cases hr
        exact ⟨rfl, rfl, rfl, rfl⟩
  · intro hwf hok
    exact readStream_some_of_valid tpm d stream buffer numElems now hwf hok

/-! ## Claim C17 -/

/-- C17: for every argument map and environment, `findWavSinkDevice` returns at most
one descriptor.  The resolved name is the value under `file_name` when that key is
present, otherwise the value of `SOAPY_WAV_SINK_FILE` when it is set, otherwise
empty.  When the resolved name is not empty the result is exactly one descriptor,
holding the resolved name under `file_name`, the text `wav_sink :: ` followed by the
name under `label`, and no other key; when it is empty the result is empty. -/
theorem C17_find_descriptor (getenv : String → Option String) (args : Kwargs) :
    (findWavSinkDevice getenv args).length ≤ 1 ∧
    ((args SOAPY_FILE_NAME_KEY).getD ((getenv ENV_VAR_NAME).getD "") ≠ "" →
      ∃ m, findWavSinkDevice getenv args = [m] ∧
        m "file_name" = some ((args SOAPY_FILE_NAME_KEY).getD ((getenv ENV_VAR_NAME).getD "")) ∧
        m "label" = some ("wav_sink :: "
          ++ (args SOAPY_FILE_NAME_KEY).getD ((getenv ENV_VAR_NAME).getD "")) ∧
        ∀ k, k ≠ "file_name" → k ≠ "label" → m k = none) ∧
    ((args SOAPY_FILE_NAME_KEY).getD ((getenv ENV_VAR_NAME).getD "") = "" →
      findWavSinkDevice getenv args = []) ∧
    SOAPY_FILE_NAME_KEY = "file_name" ∧ ENV_VAR_NAME = "SOAPY_WAV_SINK_FILE" := by
  have hres : (match args SOAPY_FILE_NAME_KEY with
      | some v => v
      | none =>
        match getenv ENV_VAR_NAME with
        | some v => v
        | none => "") = (args SOAPY_FILE_NAME_KEY).getD ((getenv ENV_VAR_NAME).getD "") := by
    cases args SOAPY_FILE_NAME_KEY with
    | some v => rfl
    | none =>
      cases getenv ENV_VAR_NAME with
      | some v => rfl
      | none => rfl
  have hfind : findWavSinkDevice getenv args =
      if (args SOAPY_FILE_NAME_KEY).getD ((getenv ENV_VAR_NAME).getD "") ≠ "" then
        [(Kwargs.empty.set "label" ("wav_sink :: "
            ++ (args SOAPY_FILE_NAME_KEY).getD ((getenv ENV_VAR_NAME).getD ""))).set
          SOAPY_FILE_NAME_KEY
          ((args SOAPY_FILE_NAME_KEY).getD ((getenv ENV_VAR_NAME).getD ""))]
      else [] := by
    simp only [findWavSinkDevice, hres]
  refine ⟨?_, ?_, ?_, rfl, rfl⟩
  · rw [hfind]
    split <;> simp
  · intro hne
    refine ⟨_, by rw [hfind, if_pos hne], ?_, ?_, ?_⟩
    · simp [Kwargs.set, SOAPY_FILE_NAME_KEY]
    · simp [Kwargs.set, SOAPY_FILE_NAME_KEY]
    · intro k hk1 hk2
      simp [Kwargs.set, Kwargs.empty, SOAPY_FILE_NAME_KEY, hk1, hk2]
  · intro he
    rw [hfind, if_neg (not_not.mpr he)]

/-- C17 at concrete inputs: with no arguments and `SOAPY_WAV_SINK_FILE` set to
`rec.wav` there is one descriptor, for `rec.wav`; with the key `file_name` present
but empty there is none, whatever the environment. -/
theorem C17_find_descriptor_witness :
    (∃ m, findWavSinkDevice demoEnv Kwargs.empty = [m] ∧
      m "file_name" = some "rec.wav" ∧ m "label" = some "wav_sink :: rec.wav") ∧
    findWavSinkDevice demoEnv (Kwargs.empty.set "file_name" "") = [] := by
  constructor
  · obtain ⟨m, h1, h2, h3, -⟩ := (C17_find_descriptor demoEnv Kwargs.empty).2.1 (by decide)
    exact ⟨m, h1, h2, h3⟩
  · exact (C17_find_descriptor demoEnv (Kwargs.empty.set "file_name" "")).2.2.1 (by decide)

/-! ## Claim C18 -/

/-- C18: for a device built from an accepted recording every `readStream` call
returns, and when the returned count is not zero it is the chunk size `c`, the
position afterwards is `p + c` and the cumulative count afterwards is `s + c`, where
`s` is the cumulative count before and `p` is the position before when that plus `c`
does not exceed the samples per channel, and 0 otherwise. -/
theorem C18_advance (tpm : Nat) (d : WavSinkDevice) (stream : WavStream) (buffer : Buffer)
    (numElems : Nat) (now : Int)
    (hwf : d.audioFile.WellFormed) (hok : constructorChecks d.audioFile = none) :
    ∃ r, readStream tpm d stream buffer numElems now = some r ∧
      (r.ret ≠ 0 →
        r.ret = (sliceSize d.audioFile.sampleRate numElems : Int) ∧
        r.dev.pos =
          (if d.pos + sliceSize d.audioFile.sampleRate numElems
              > d.audioFile.numSamplesPerChannel then 0 else d.pos)
            + sliceSize d.audioFile.sampleRate numElems ∧
        r.dev.samples_sent
          = d.samples_sent + (sliceSize d.audioFile.sampleRate numElems : Int)) := by
  by_cases h : desiredNumSamples (elapsedMs tpm d.start_stamp now) d.audioFile.sampleRate
      < d.samples_sent + (sliceSize d.audioFile.sampleRate numElems : Int)
  · refine ⟨_, readStream_not_due tpm d stream buffer numElems now h, ?_⟩
    intro hne
    exact absurd rfl hne
  · obtain ⟨out, -, hr⟩ := readStream_due_valid tpm d stream buffer numElems now hwf hok h
    exact ⟨_, hr, fun _ => ⟨rfl, rfl, rfl⟩⟩

/-- C18 at a concrete input: the state after eight chunks of the demo recording, a
read at 3100 ms; the call returns 32678, the position becomes 0 + 32678 and the
cumulative count 261424 + 32678. -/
theorem C18_advance_witness :
    demoFile.WellFormed ∧ constructorChecks demoFile = none ∧
    ∃ r, readStream 1000000 wrapDemoDevice ⟨SOAPY_SDR_CS16⟩ zeroBuffer 100000 3100000000
        = some r ∧ r.ret = 32678 ∧ r.dev.pos = 32678 ∧ r.dev.samples_sent = 294102 := by
  obtain ⟨r, hr, h⟩ := C18_advance 1000000 wrapDemoDevice ⟨SOAPY_SDR_CS16⟩ zeroBuffer 100000
    3100000000 demoFile_wellFormed demoFile_checks
  obtain ⟨out, -, hr2⟩ := readStream_due_valid 1000000 wrapDemoDevice ⟨SOAPY_SDR_CS16⟩
    zeroBuffer 100000 3100000000 demoFile_wellFormed demoFile_checks (by decide)
  have hne : r.ret ≠ 0 := by
    rw [hr2] at hr
    cases hr
    show ((sliceSize wrapDemoDevice.audioFile.sampleRate 100000 : Nat) : Int) ≠ 0
    decide
  obtain ⟨h1, h2, h3⟩ := h hne
  exact ⟨demoFile_wellFormed, demoFile_checks, r, hr, h1, h2, h3⟩

/-! ## Claim C19 -/

/-- C19: delivery never runs ahead of real time.  For a device built from an accepted
recording with sample rate `r`, after `activateStream` with flags 0 at clock `t`,
every sequence of `readStream` calls whose elapsed milliseconds are non-negative and
non-decreasing runs, and after its last call (hence after each call) the cumulative
count `s` satisfies 0 ≤ s ≤ (e * r) / 1000, `e` the elapsed milliseconds of that
call. -/
theorem C19_never_ahead (tpm : Nat) (d : WavSinkDevice) (t : Int) (reads : List ReadArgs)
    (last : ReadArgs)
    (hwf : d.audioFile.WellFormed) (hok : constructorChecks d.audioFile = none)
    (hnonneg : ∀ a ∈ reads ++ [last], 0 ≤ elapsedMs tpm t a.now)
    (hmono : List.Pairwise (fun a b => elapsedMs tpm t a.now ≤ elapsedMs tpm t b.now)
      (reads ++ [last])) :
    (activateStream d 0 t).1 = 0 ∧
    ∃ d1, run tpm (activateStream d 0 t).2 ((reads ++ [last]).map ReadArgs.toCall) = some d1 ∧
      0 ≤ d1.samples_sent ∧
      d1.samples_sent
        ≤ Int.tdiv (elapsedMs tpm t last.now * (d.audioFile.sampleRate : Int)) 1000 := by
  refine ⟨rfl, ?_⟩
  obtain ⟨d1, hrun, -⟩ := run_some_of_valid tpm ((reads ++ [last]).map ReadArgs.toCall)
    (activateStream d 0 t).2 hwf hok
  have h := run_reads_bounds tpm t (reads ++ [last]) (activateStream d 0 t).2 d1 0 rfl
    (le_refl _) (le_refl _)
    (show (0 : Int) ≤ Int.tdiv (0 * ((activateStream d 0 t).2.audioFile.sampleRate : Int)) 1000
      by rw [Int.zero_mul, Int.zero_tdiv])
    hnonneg hmono hrun
  rw [List.foldl_append] at h
  exact ⟨d1, hrun, h.1, h.2⟩

/-- C19 at a concrete input: the demo device activated at clock 0, a read of 96
samples at 1 ms and a read of 96 samples at 2 ms; the cumulative count afterwards is
at most the 192 samples due at 2 ms. -/
theorem C19_never_ahead_witness :
    demoFile.WellFormed ∧ constructorChecks demoFile = none ∧
    ∃ d1, run 1000000 (activateStream demoDevice 0 0).2
        [.read ⟨SOAPY_SDR_CS16⟩ zeroBuffer 96 1000000,
         .read ⟨SOAPY_SDR_CS16⟩ zeroBuffer 96 2000000] = some d1 ∧
      0 ≤ d1.samples_sent ∧ d1.samples_sent ≤ 192 := by
  have hn : ∀ a ∈ [(⟨⟨SOAPY_SDR_CS16⟩, zeroBuffer, 96, 1000000⟩ : ReadArgs)]
      ++ [(⟨⟨SOAPY_SDR_CS16⟩, zeroBuffer, 96, 2000000⟩ : ReadArgs)],
      0 ≤ elapsedMs 1000000 0 a.now := by
    intro a ha
    simp only [List.singleton_append, List.mem_cons, List.mem_singleton, List.not_mem_nil,
      or_false] at ha
    rcases ha with rfl | rfl <;> decide
  have hm : List.Pairwise
      (fun a b : ReadArgs => elapsedMs 1000000 0 a.now ≤ elapsedMs 1000000 0 b.now)
      ([(⟨⟨SOAPY_SDR_CS16⟩, zeroBuffer, 96, 1000000⟩ : ReadArgs)]
        ++ [(⟨⟨SOAPY_SDR_CS16⟩, zeroBuffer, 96, 2000000⟩ : ReadArgs)]) := by
    refine List.Pairwise.cons ?_ (List.Pairwise.cons ?_ List.Pairwise.nil)
    · intro b hb
      have hb2 : b = (⟨⟨SOAPY_SDR_CS16⟩, zeroBuffer, 96, 2000000⟩ : ReadArgs) :=
        List.mem_singleton.mp hb
      subst hb2
      decide
    · intro b hb
      exact absurd hb (List.not_mem_nil b)
  obtain ⟨-, d1, hrun, h0, h1⟩ := C19_never_ahead 1000000 demoDevice 0
    [⟨⟨SOAPY_SDR_CS16⟩, zeroBuffer, 96, 1000000⟩] ⟨⟨SOAPY_SDR_CS16⟩, zeroBuffer, 96, 2000000⟩
    demoFile_wellFormed demoFile_checks hn hm
  exact ⟨demoFile_wellFormed, demoFile_checks, d1, hrun, h0, h1⟩

/-! ## Claim C20 -/

/-- C20: every descriptor returned by `findWavSinkDevice` holds a non-empty value
under `file_name`, so `makeWavSinkDevice` on that descriptor goes on to the
constructor with that name and never throws the error of a missing `file_name`;
for an argument map without the key `file_name`, `makeWavSinkDevice` throws that
error and no device is made. -/
theorem C20_factory_file_name (load : String → Option AudioFile)
    (getenv : String → Option String) (args : Kwargs) :
    (∀ m ∈ findWavSinkDevice getenv args,
      ∃ name, m SOAPY_FILE_NAME_KEY = some name ∧ name ≠ "" ∧
        makeWavSinkDevice load m = WavSinkDevice.create load name ∧
        makeWavSinkDevice load m
          ≠ .error "Unable to create WavSink device without file_name") ∧
    (args SOAPY_FILE_NAME_KEY = none →
      makeWavSinkDevice load args
        = .error "Unable to create WavSink device without file_name") := by
  constructor
  · intro m hm
    simp only [findWavSinkDevice] at hm
    split at hm
    · rename_i hne
      simp only [List.mem_singleton] at hm
      subst hm
      refine ⟨_, by simp [Kwargs.set], hne, ?_, ?_⟩
      · simp [makeWavSinkDevice, Kwargs.set]
      · simp only [makeWavSinkDevice, Kwargs.set, if_true]
        exact create_ne_missing load _
    · exact absurd hm (List.not_mem_nil m)
  · intro h
    simp only [makeWavSinkDevice, h]

/-- C20 at concrete inputs: with `SOAPY_WAV_SINK_FILE` set to `rec.wav` and no
arguments, the descriptor found leads the factory to the constructor for `rec.wav`;
the factory on the empty argument map throws the error of a missing `file_name`. -/
theorem C20_factory_file_name_witness :
    (∀ m ∈ findWavSinkDevice demoEnv Kwargs.empty,
      makeWavSinkDevice (fun _ => some demoFile) m
        = WavSinkDevice.create (fun _ => some demoFile) "rec.wav") ∧
    findWavSinkDevice demoEnv Kwargs.empty ≠ [] ∧
    makeWavSinkDevice (fun _ => some demoFile) Kwargs.empty
      = .error "Unable to create WavSink device without file_name" := by
  refine ⟨?_, ?_, ?_⟩
  · intro m hm
    obtain ⟨name, h1, -, h3, -⟩ :=
      (C20_factory_file_name (fun _ => some demoFile) demoEnv Kwargs.empty).1 m hm
    rw [find_demoEnv, List.mem_singleton] at hm
    subst hm
    have e4 : name = "rec.wav" := (Option.some.inj h1).symm
    rw [h3, e4]
  · rw [find_demoEnv]
    exact List.cons_ne_nil _ _
  · exact (C20_factory_file_name (fun _ => some demoFile) demoEnv Kwargs.empty).2 rfl

end WavSink
